import Mathlib

/-!
Shallow embedding of the Wallet Ledger & Transaction State Machine of the
APP_BACKEND repository (src/ficore_mobile_backend/blueprints/vas.py and
src/ficore_mobile_backend/blueprints/vas_purchase.py).

Modelling conventions:
* Monetary amounts are Python floats in the source; every amount the flows
  manipulate is a naira value combined only with + / - / comparisons, so they
  are embedded as `Int` (exact arithmetic).  The emergency-pricing threshold
  `cost >= amount * 0.99 * 2.0 * 0.8` is embedded scaled by 1000
  (`1000 * cost >= 1584 * amount`).
* MongoDB collections are association lists; `find_one` is `List.find?`
  (first match), `update_one` updates the first matching document, and
  `insert_one` appends.  The unique index on `transactionReference`
  (vas.py line 1967 / vas_purchase.py line 1809) makes `insert_one` fail
  with a duplicate-key error when the key is already present.
* External provider HTTP calls (`call_monnify_airtime`, `call_peyflex_data`,
  ...) are passed in as `Except String ApiResp` values: `.ok r` is the call
  returning response `r`, `.error m` is the call raising with message `m`.
  The pricing oracle `calculate_vas_price` is passed in as a `Pricing`
  record.  Notifications / expense rows / balance pushes are modelled as
  counters (their content is out of the ledger's scope).
* The HMAC-SHA512 primitive of the webhook handler is passed in as an
  abstract keyed-hash function `secret -> rawBody -> hex digest`; the
  handler only ever compares its output with the supplied header.
-/

inductive TxnStatus
  | SUCCESS
  | FAILED
  | PENDING
  | PENDING_PAYMENT
deriving DecidableEq, Repr

inductive TxnType
  | WALLET_FUNDING
  | AIRTIME
  | DATA
  | KYC_VERIFICATION
deriving DecidableEq, Repr

inductive ProviderName
  | monnify
  | peyflex
deriving DecidableEq, Repr

/-- A document of the `vas_transactions` collection (fields used by the
modelled flows; absent fields are `none`). -/
structure Txn where
  id : Nat
  userId : String
  type_ : TxnType
  network : String
  amount : Int
  amountPaid : Int
  depositFee : Int
  sellingPrice : Int
  phoneNumber : String
  status : TxnStatus
  failureReason : Option String
  errorMessage : Option String
  provider : Option ProviderName
  requestId : Option String
  transactionReference : Option String
  reference : Option String
  monnifyTransactionReference : Option String
  paymentReference : Option String
  dataPlan : Option String
  dataPlanId : Option String
  providerConfirmed : Bool
  createdAt : Nat
deriving DecidableEq, Repr

/-- A document of the `vas_wallets` collection. -/
structure Wallet where
  userId : String
  balance : Int
deriving DecidableEq, Repr

/-- A document of the `users` collection (premium-relevant fields). -/
structure UserDoc where
  id : String
  email : String
  subscriptionStatus : Option String
  subscriptionStartDate : Option Nat
  subscriptionEndDate : Option Nat
  isAdmin : Bool
deriving DecidableEq, Repr

/-- A document of the `corporate_revenue` collection. -/
structure RevenueRecord where
  rtype : String
  category : String
  amount : Int
  userId : String
  relatedTransaction : String
deriving DecidableEq, Repr

/-- A document of the `plan_mismatch_logs` collection
(vas_purchase.py `log_plan_mismatch`, lines 2721-2749). -/
structure MismatchLog where
  userId : String
  provider : ProviderName
  incident_type : String
  severity : String
  requested_plan_id : String
  requested_plan_name : String
  requested_amount : Int
  delivered_plan : String
  status : String
  requires_investigation : Bool
  requires_refund : Bool
deriving DecidableEq, Repr

/-- A document of the `emergency_pricing_tags` collection. -/
structure EmergencyTag where
  transactionId : Nat
  costPrice : Int
  serviceKind : String
  network : String
  status : String
  recoveryDeadline : Nat
deriving DecidableEq, Repr

/-- The storage-layer wallet-balance write actually issued by a flow:
`set v` is MongoDB `$set` of an application-computed absolute value,
`inc d` is the atomic `$inc` increment. -/
inductive WalletWrite
  | set (newValue : Int)
  | inc (delta : Int)
deriving DecidableEq, Repr

def WalletWrite.isAtomicInc : WalletWrite → Bool
  | .set _ => false
  | .inc _ => true

/-- Effect of a wallet write on the stored balance. -/
def applyWalletWrite (current : Int) : WalletWrite → Int
  | .set v => v
  | .inc d => current + d

/-- vas.py lines 1982-1987 (and 2084-2089): the funding credit computes
`new_balance = wallet.balance + amount_to_credit` in application code and
writes it back with `$set`. -/
def creditWalletWrite (readBalance amountToCredit : Int) : WalletWrite :=
  WalletWrite.set (readBalance + amountToCredit)

/-- vas_purchase.py lines 1852-1857 (and 2289-2294): the purchase debit
computes `new_balance = wallet.balance - total_amount` in application code
and writes it back with `$set`. -/
def debitWalletWrite (readBalance totalAmount : Int) : WalletWrite :=
  WalletWrite.set (readBalance - totalAmount)

/-- The database state touched by the modelled flows. -/
structure DB where
  txns : List Txn
  wallets : List Wallet
  users : List UserDoc
  revenue : List RevenueRecord
  mismatchLogs : List MismatchLog
  emergencyTags : List EmergencyTag
  notifications : Nat
  expenses : Nat
  balancePushes : Nat
deriving Repr, DecidableEq

/-- `update_one`: rewrite the first document matching `p` with `f`. -/
def updateFirst (p : Txn → Bool) (f : Txn → Txn) : List Txn → List Txn
  | [] => []
  | t :: ts => if p t then f t :: ts else t :: updateFirst p f ts

/-- `find_one` on `vas_wallets` by userId. -/
def findWallet (db : DB) (uid : String) : Option Wallet :=
  db.wallets.find? (fun w => w.userId = uid)

/-- The balance the flows read (0 when the wallet record is absent,
mirroring `wallet.get('balance', 0.0)`). -/
def walletBalance (db : DB) (uid : String) : Int :=
  match findWallet db uid with
  | some w => w.balance
  | none => 0

/-- `update_one` on `vas_wallets` carrying a `WalletWrite`. -/
def updateWalletBalance (db : DB) (uid : String) (w : WalletWrite) : DB :=
  { db with wallets :=
      db.wallets.map (fun wl =>
        if wl.userId = uid then { wl with balance := applyWalletWrite wl.balance w } else wl) }

/-- Status of the first transaction with the given `_id`. -/
def statusOfL (l : List Txn) (id : Nat) : Option TxnStatus :=
  (l.find? (fun t => t.id = id)).map (fun t => t.status)

def statusOf (db : DB) (id : Nat) : Option TxnStatus :=
  statusOfL db.txns id

/-- HTTP-level reply: status code, JSON `success` flag, JSON `message`. -/
structure Resp where
  code : Nat
  ok : Bool
  message : String
deriving DecidableEq, Repr

/-- vas_purchase.py lines 116-129: the duplicate check looks for a
transaction with the same user / type / amount / phone whose status is
`PENDING`, created within the last 5 minutes. -/
def check_pending_transaction (db : DB) (user_id : String) (transaction_type : TxnType)
    (amount : Int) (phone_number : String) (now : Nat) : Option Txn :=
  let cutoff_time := now - 5 * 60
  db.txns.find? (fun t =>
    t.userId = user_id && t.type_ = transaction_type && t.amount = amount &&
    t.phoneNumber = phone_number && t.status = TxnStatus.PENDING &&
    cutoff_time ≤ t.createdAt)

/-- Modelled from the spec (section 4.1, claim C8's wording): the duplicate
check the spec describes matches a transaction that is still
FAILED-with-reason-in-progress (not yet resolved) within the 5-minute
window.  Kept separate from `check_pending_transaction`, which embeds the
source. -/
def spec_checkDuplicate (db : DB) (user_id : String) (transaction_type : TxnType)
    (amount : Int) (phone_number : String) (now : Nat) : Bool :=
  db.txns.any (fun t =>
    t.userId = user_id && t.type_ = transaction_type && t.amount = amount &&
    t.phoneNumber = phone_number && t.status = TxnStatus.FAILED &&
    t.failureReason = some "Transaction in progress" &&
    now - 5 * 60 ≤ t.createdAt)

/-- Result of a provider adapter call: `description`, `vendAmount`,
`payableAmount` are the fields `validate_delivered_plan` inspects. -/
structure ApiResp where
  description : Option String
  vendAmount : Option Int
  payableAmount : Option Int
deriving DecidableEq, Repr

/-- Output of the pricing oracle `calculate_vas_price` (external
collaborator, passed in). -/
structure Pricing where
  selling_price : Int
  cost_price : Int
  margin : Int
deriving DecidableEq, Repr

/-- Observable ledger events of one purchase request, in source order.
`providerSuccess p` is adapter `p` returning without raising;
`providerFailure p msg` is the attempt on `p` raising `msg` (an adapter
error, or for data the plan-mismatch raise inside the try block). -/
inductive Ev
  | insertTxn (t : Txn)
  | callProvider (p : ProviderName)
  | providerSuccess (p : ProviderName)
  | providerFailure (p : ProviderName) (msg : String)
  | debitWallet (amt : Int)
  | setTxnFailed (reason : String)
  | setTxnSuccess (p : ProviderName)
deriving DecidableEq, Repr

/-- State of the locals `success / provider / error_message / api_response`
after the try/except provider ladder, plus the emitted events. -/
structure AttemptResult where
  success : Bool
  provider : ProviderName
  error_message : String
  api_response : Option ApiResp
  events : List Ev
deriving Repr

/-- vas_purchase.py lines 1816-1838: try Monnify first; on exception fall
back to Peyflex; if both raise, keep the concatenated error message. -/
def attempt_airtime (monnifyCall peyflexCall : Except String ApiResp) : AttemptResult :=
  match monnifyCall with
  | Except.ok r =>
      { success := true, provider := ProviderName.monnify, error_message := "",
        api_response := some r,
        events := [Ev.callProvider ProviderName.monnify, Ev.providerSuccess ProviderName.monnify] }
  | Except.error monnify_error =>
      match peyflexCall with
      | Except.ok r =>
          { success := true, provider := ProviderName.peyflex, error_message := monnify_error,
            api_response := some r,
            events := [Ev.callProvider ProviderName.monnify,
                       Ev.providerFailure ProviderName.monnify monnify_error,
                       Ev.callProvider ProviderName.peyflex,
                       Ev.providerSuccess ProviderName.peyflex] }
      | Except.error peyflex_error =>
          { success := false, provider := ProviderName.monnify,
            error_message := "Both providers failed. Monnify: " ++ monnify_error ++
                             ", Peyflex: " ++ peyflex_error,
            api_response := none,
            events := [Ev.callProvider ProviderName.monnify,
                       Ev.providerFailure ProviderName.monnify monnify_error,
                       Ev.callProvider ProviderName.peyflex,
                       Ev.providerFailure ProviderName.peyflex peyflex_error] }

/-! Python string primitives, implemented over the character list so that
closed terms reduce inside the kernel. -/

/-- Python `str.upper`. -/
def pyUpper (s : String) : String := ⟨s.data.map Char.toUpper⟩

/-- Python `str.lower`. -/
def pyLower (s : String) : String := ⟨s.data.map Char.toLower⟩

/-- Python `s.replace(c, "")` for a one-character pattern. -/
def pyRemoveChar (c : Char) (s : String) : String :=
  ⟨s.data.filter (fun d => !(d = c))⟩

/-- Python `s.startswith(p)`. -/
def pyStartsWith (s p : String) : Bool := p.data.isPrefixOf s.data

/-- Python `s[n:]`. -/
def pyDrop (s : String) (n : Nat) : String := ⟨s.data.drop n⟩

def pyContainsAux (pat : List Char) : List Char → Bool
  | [] => pat.isEmpty
  | c :: tl => pat.isPrefixOf (c :: tl) || pyContainsAux pat tl

/-- Python `t in s` (substring containment). -/
def pyContains (s t : String) : Bool := pyContainsAux t.data s.data

/-- `t` occurs in `s` as a substring (used for the key-term scan). -/
def containsSub (s t : String) : Bool :=
  pyContains s t

/-- vas_purchase.py lines 2698-2716: plan names are similar when they share
at least one key data-volume/validity term. -/
def check_plan_name_similarity (requested_name delivered_name : String) : Bool :=
  let requested_lower := pyLower requested_name
  let delivered_lower := pyLower delivered_name
  let key_terms := ["1gb", "2gb", "500mb", "230mb", "daily", "weekly", "monthly",
                    "7 days", "30 days"]
  let requested_terms := key_terms.filter (fun term => containsSub requested_lower term)
  let delivered_terms := key_terms.filter (fun term => containsSub delivered_lower term)
  requested_terms.any (fun term => delivered_terms.contains term)

structure PlanMatchResult where
  is_match : Bool
  delivered_plan : String
  delivered_name : String
  delivered_amount : Int
deriving DecidableEq, Repr

/-- vas_purchase.py lines 2632-2696: validate that the provider response
matches the requested plan (amounts within an absolute 50-naira tolerance
and similar plan names). -/
def validate_delivered_plan (api_response : Option ApiResp)
    (requested_plan_name : String) (requested_amount : Int) : PlanMatchResult :=
  match api_response with
  | none =>
      { is_match := false, delivered_plan := "No response",
        delivered_name := "Unknown", delivered_amount := 0 }
  | some r =>
      let delivered_plan_name :=
        match r.description with
        | some d => d
        | none => "Unknown"
      let delivered_amount :=
        match r.vendAmount with
        | some v => v
        | none =>
            match r.payableAmount with
            | some v => v
            | none => 0
      let amount_difference := (delivered_amount - requested_amount).natAbs
      let amounts_match := decide (amount_difference ≤ 50)
      let name_similarity := check_plan_name_similarity requested_plan_name delivered_plan_name
      { is_match := amounts_match && name_similarity,
        delivered_plan := delivered_plan_name,
        delivered_name := delivered_plan_name,
        delivered_amount := delivered_amount }

/-- vas_purchase.py lines 2721-2777: persist a Plan Mismatch Log flagged for
investigation and refund, and notify the user. -/
def log_plan_mismatch (db : DB) (user_id : String) (provider : ProviderName)
    (requested_plan_id requested_plan_name : String) (requested_amount : Int)
    (delivered_plan : String) : DB :=
  { db with
    mismatchLogs := db.mismatchLogs ++
      [{ userId := user_id, provider := provider,
         incident_type := "PLAN_MISMATCH", severity := "HIGH",
         requested_plan_id := requested_plan_id,
         requested_plan_name := requested_plan_name,
         requested_amount := requested_amount,
         delivered_plan := delivered_plan,
         status := "LOGGED",
         requires_investigation := true, requires_refund := true }],
    notifications := db.notifications + 1 }

/-- The Peyflex fallback block of `buy_data` (vas_purchase.py lines
2239-2275), entered with the message of the raised Monnify attempt. -/
def attempt_data_fallback (uid data_plan_id data_plan_name : String) (amount : Int)
    (monnify_error : String) (peyflexCall : Except String ApiResp)
    (db : DB) (evPre : List Ev) : AttemptResult × DB :=
  match peyflexCall with
  | Except.ok r =>
      let pm := validate_delivered_plan (some r) data_plan_name amount
      if pm.is_match then
        ({ success := true, provider := ProviderName.peyflex, error_message := monnify_error,
           api_response := some r,
           events := evPre ++ [Ev.callProvider ProviderName.peyflex,
                               Ev.providerSuccess ProviderName.peyflex] }, db)
      else
        let db' := log_plan_mismatch db uid ProviderName.peyflex data_plan_id data_plan_name
          amount pm.delivered_plan
        let peyflex_error := "Plan mismatch: Requested " ++ data_plan_name ++
          " but got " ++ pm.delivered_plan
        ({ success := false, provider := ProviderName.monnify,
           error_message := "Both providers failed. Monnify: " ++ monnify_error ++
                            ", Peyflex: " ++ peyflex_error,
           api_response := some r,
           events := evPre ++ [Ev.callProvider ProviderName.peyflex,
                               Ev.providerSuccess ProviderName.peyflex,
                               Ev.providerFailure ProviderName.peyflex peyflex_error] }, db')
  | Except.error peyflex_error =>
      ({ success := false, provider := ProviderName.monnify,
         error_message := "Both providers failed. Monnify: " ++ monnify_error ++
                          ", Peyflex: " ++ peyflex_error,
         api_response := none,
         events := evPre ++ [Ev.callProvider ProviderName.peyflex,
                             Ev.providerFailure ProviderName.peyflex peyflex_error] }, db)

/-- vas_purchase.py lines 2202-2275: the data-purchase provider ladder.
A Monnify response that fails delivered-plan validation is logged as a
mismatch and the raise sends control to the Peyflex fallback. -/
def attempt_data (uid data_plan_id data_plan_name : String) (amount : Int)
    (monnifyCall peyflexCall : Except String ApiResp) (db : DB) : AttemptResult × DB :=
  match monnifyCall with
  | Except.ok r =>
      let pm := validate_delivered_plan (some r) data_plan_name amount
      if pm.is_match then
        ({ success := true, provider := ProviderName.monnify, error_message := "",
           api_response := some r,
           events := [Ev.callProvider ProviderName.monnify,
                      Ev.providerSuccess ProviderName.monnify] }, db)
      else
        let db' := log_plan_mismatch db uid ProviderName.monnify data_plan_id data_plan_name
          amount pm.delivered_plan
        let monnify_error := "Plan mismatch: Requested " ++ data_plan_name ++
          " but got " ++ pm.delivered_plan
        attempt_data_fallback uid data_plan_id data_plan_name amount monnify_error
          peyflexCall db'
          [Ev.callProvider ProviderName.monnify,
           Ev.providerSuccess ProviderName.monnify,
           Ev.providerFailure ProviderName.monnify monnify_error]
  | Except.error monnify_error =>
      attempt_data_fallback uid data_plan_id data_plan_name amount monnify_error
        peyflexCall db
        [Ev.callProvider ProviderName.monnify,
         Ev.providerFailure ProviderName.monnify monnify_error]

/-- A transaction document with every optional field absent (defaults for
the fields a given flow does not set). -/
def blankTxn : Txn :=
  { id := 0, userId := "", type_ := TxnType.WALLET_FUNDING, network := "", amount := 0,
    amountPaid := 0, depositFee := 0, sellingPrice := 0, phoneNumber := "",
    status := TxnStatus.FAILED, failureReason := none, errorMessage := none,
    provider := none, requestId := none, transactionReference := none,
    reference := none, monnifyTransactionReference := none,
    paymentReference := none, dataPlan := none, dataPlanId := none,
    providerConfirmed := false, createdAt := 0 }

/-- Modelled from the spec: `tag_emergency_transaction` lives in
utils/emergency_pricing_recovery.py, which is not under src/.  Per spec
section 4.5 it creates a one-to-one Emergency Pricing Tag in state
PENDING_RECOVERY with a recovery deadline. -/
def tag_emergency_transaction (db : DB) (txnId : Nat) (cost : Int)
    (serviceKind network : String) (now : Nat) : DB :=
  { db with emergencyTags := db.emergencyTags ++
      [{ transactionId := txnId, costPrice := cost, serviceKind := serviceKind,
         network := network, status := "PENDING_RECOVERY",
         recoveryDeadline := now + 24 * 3600 }] }


/-- The failure update of vas_purchase purchases (lines 1841-1845 / 2279-2282). -/
def setFailedUpdate (reason : String) (t : Txn) : Txn :=
  { t with status := TxnStatus.FAILED, failureReason := some reason }

/-- The promotion update of vas_purchase purchases: set SUCCESS, record the
provider, `$unset` the failure reason (lines 1871-1885 / 2309-2323). -/
def setSuccessUpdate (p : ProviderName) (t : Txn) : Txn :=
  { t with status := TxnStatus.SUCCESS, provider := some p, failureReason := none }

/-- The failure update of the legacy vas.py purchase (lines 2578-2583):
writes `errorMessage`, does not touch `failureReason`. -/
def legacySetFailedUpdate (reason : String) (t : Txn) : Txn :=
  { t with status := TxnStatus.FAILED, errorMessage := some reason }

/-- The promotion update of the legacy vas.py purchase (lines 2597-2608):
sets SUCCESS and the provider, clears nothing. -/
def legacySetSuccessUpdate (p : ProviderName) (t : Txn) : Txn :=
  { t with status := TxnStatus.SUCCESS, provider := some p }

/-- The ledger row `buy_airtime` inserts (vas_purchase.py lines
1791-1813): status FAILED, reason "Transaction in progress". -/
def airtimeTxnRow (uid phone_number network : String) (amount selling_price : Int)
    (newId : Nat) (request_id : String) (now : Nat) : Txn :=
  { blankTxn with
    id := newId, userId := uid, type_ := TxnType.AIRTIME, network := network,
    phoneNumber := phone_number, amount := amount,
    sellingPrice := selling_price,
    status := TxnStatus.FAILED,
    failureReason := some "Transaction in progress",
    provider := none, requestId := some request_id,
    transactionReference := some request_id, createdAt := now }

/-- The ledger row `buy_data` inserts (vas_purchase.py lines 2167-2191). -/
def dataTxnRow (uid phone_number network data_plan_id data_plan_name : String)
    (amount : Int) (newId : Nat) (request_id : String) (now : Nat) : Txn :=
  { blankTxn with
    id := newId, userId := uid, type_ := TxnType.DATA, network := network,
    phoneNumber := phone_number,
    dataPlan := some data_plan_name, dataPlanId := some data_plan_id,
    amount := amount, sellingPrice := amount,
    status := TxnStatus.FAILED,
    failureReason := some "Transaction in progress",
    provider := none, requestId := some request_id,
    transactionReference := some request_id, createdAt := now }

/-- The ledger row the legacy vas.py `buy_airtime` inserts (lines
2529-2551): status PENDING. -/
def legacyAirtimeTxnRow (uid phone_number network : String) (amount selling_price : Int)
    (newId : Nat) (request_id : String) (now : Nat) : Txn :=
  { blankTxn with
    id := newId, userId := uid, type_ := TxnType.AIRTIME, network := network,
    phoneNumber := phone_number, amount := amount,
    sellingPrice := selling_price,
    status := TxnStatus.PENDING,
    provider := none, requestId := some request_id,
    transactionReference := some request_id, createdAt := now }

/-- vas_purchase.py lines 1712-2024, `buy_airtime`: validation, duplicate
check, balance check, insert of the FAILED-in-progress row, provider
ladder, and commit (debit, balance push, promotion to SUCCESS, revenue,
emergency tag, expense row) or failure update.  `newId` is the fresh
ObjectId, `pricing` the pricing-oracle output, the two `Except` arguments
the provider calls. -/
def buy_airtime (uid phone_number network : String) (amount : Int)
    (pricing : Pricing) (newId : Nat) (request_id : String) (now : Nat)
    (monnifyCall peyflexCall : Except String ApiResp) (db : DB) :
    Resp × DB × List Ev :=
  if phone_number = "" ∨ network = "" ∨ amount ≤ 0 then
    ({ code := 400, ok := false, message := "Invalid request data" }, db, [])
  else if amount < 100 ∨ 5000 < amount then
    ({ code := 400, ok := false, message := "Amount must be between 100 and 5000" }, db, [])
  else
    let selling_price := pricing.selling_price
    -- cost_price >= (amount * 0.99) * 2.0 * 0.8, scaled by 1000
    let is_emergency_pricing := 1584 * amount ≤ 1000 * pricing.cost_price
    match check_pending_transaction db uid TxnType.AIRTIME selling_price phone_number now with
    | some _ =>
        ({ code := 409, ok := false,
           message := "A similar transaction is already being processed. Please wait." }, db, [])
    | none =>
        match findWallet db uid with
        | none =>
            ({ code := 404, ok := false,
               message := "Wallet not found. Please create a wallet first." }, db, [])
        | some wallet =>
            let total_amount := selling_price
            if wallet.balance < total_amount then
              ({ code := 400, ok := false, message := "Insufficient wallet balance" }, db, [])
            else
              let vas_transaction := airtimeTxnRow uid phone_number network amount
                selling_price newId request_id now
              let db1 := { db with txns := db.txns ++ [vas_transaction] }
              let att := attempt_airtime monnifyCall peyflexCall
              if att.success = false then
                let db2 := { db1 with
                  txns := updateFirst (fun t => t.id = newId) (setFailedUpdate att.error_message) db1.txns }
                ({ code := 500, ok := false, message := "Purchase failed" }, db2,
                 Ev.insertTxn vas_transaction :: att.events ++ [Ev.setTxnFailed att.error_message])
              else
                let db2 := updateWalletBalance db1 uid
                  (debitWalletWrite wallet.balance total_amount)
                let db3 := { db2 with balancePushes := db2.balancePushes + 1 }
                let db4 := { db3 with
                  txns := updateFirst (fun t => t.id = newId) (setSuccessUpdate att.provider) db3.txns }
                let db5 :=
                  if 0 < pricing.margin then
                    { db4 with revenue := db4.revenue ++
                        [{ rtype := "VAS_MARGIN", category := "AIRTIME_MARGIN",
                           amount := pricing.margin, userId := uid,
                           relatedTransaction := toString newId }] }
                  else db4
                let db6 :=
                  if is_emergency_pricing then
                    let tagged := tag_emergency_transaction db5 newId pricing.cost_price
                      "airtime" network now
                    { tagged with notifications := tagged.notifications + 1 }
                  else db5
                let db7 := { db6 with expenses := db6.expenses + 1 }
                ({ code := 200, ok := true, message := "Airtime purchase successful" }, db7,
                 Ev.insertTxn vas_transaction :: att.events ++
                   [Ev.debitWallet total_amount, Ev.setTxnSuccess att.provider])

/-- vas_purchase.py lines 2057-2450, `buy_data`: no-margin pricing
(selling price = cost price = plan amount), catalog pre-validation
(`validate_data_plan_exists`, an external-HTTP check passed in as
`plan_exists_ok`), duplicate check, FAILED-in-progress insert, provider
ladder with delivered-plan validation, and commit or failure update. -/
def buy_data (uid phone_number network data_plan_id data_plan_name : String)
    (amount : Int) (plan_exists_ok : Bool) (newId : Nat) (request_id : String)
    (now : Nat) (monnifyCall peyflexCall : Except String ApiResp) (db : DB) :
    Resp × DB × List Ev :=
  if phone_number = "" ∨ network = "" ∨ data_plan_id = "" ∨ amount ≤ 0 then
    ({ code := 400, ok := false, message := "Invalid request data" }, db, [])
  else
    -- NO MARGIN policy: sell data at face value (lines 2092-2096)
    let selling_price := amount
    let cost_price := amount
    let margin : Int := 0
    if plan_exists_ok = false then
      ({ code := 400, ok := false, message := "Data plan validation failed" }, db, [])
    else
      -- cost_price >= amount * 2.0 * 0.8, scaled by 10
      let is_emergency_pricing := 16 * amount ≤ 10 * cost_price
      match check_pending_transaction db uid TxnType.DATA selling_price phone_number now with
      | some _ =>
          ({ code := 409, ok := false,
             message := "A similar transaction is already being processed. Please wait." },
           db, [])
      | none =>
          match findWallet db uid with
          | none =>
              ({ code := 404, ok := false,
                 message := "Wallet not found. Please create a wallet first." }, db, [])
          | some wallet =>
              let total_amount := selling_price
              if wallet.balance < total_amount then
                ({ code := 400, ok := false, message := "Insufficient wallet balance" }, db, [])
              else
                let vas_transaction := dataTxnRow uid phone_number network data_plan_id
                  data_plan_name amount newId request_id now
                let db1 := { db with txns := db.txns ++ [vas_transaction] }
                let attOut := attempt_data uid data_plan_id data_plan_name amount
                  monnifyCall peyflexCall db1
                let att := attOut.1
                let db1a := attOut.2
                if att.success = false then
                  let db2 := { db1a with
                    txns := updateFirst (fun t => t.id = newId) (setFailedUpdate att.error_message) db1a.txns }
                  ({ code := 500, ok := false, message := "Purchase failed" }, db2,
                   Ev.insertTxn vas_transaction :: att.events ++ [Ev.setTxnFailed att.error_message])
                else
                  let db2 := updateWalletBalance db1a uid
                    (debitWalletWrite wallet.balance total_amount)
                  let db3 := { db2 with balancePushes := db2.balancePushes + 1 }
                  let db4 := { db3 with
                    txns := updateFirst (fun t => t.id = newId) (setSuccessUpdate att.provider) db3.txns }
                  -- no corporate revenue for data (no-margin policy, line 2348)
                  let db5 :=
                    if is_emergency_pricing then
                      let tagged := tag_emergency_transaction db4 newId cost_price
                        "data" network now
                      { tagged with notifications := tagged.notifications + 1 }
                    else db4
                  let db6 := { db5 with expenses := db5.expenses + 1 }
                  let _ := margin
                  ({ code := 200, ok := true, message := "Data purchase successful" }, db6,
                   Ev.insertTxn vas_transaction :: att.events ++
                     [Ev.debitWallet total_amount, Ev.setTxnSuccess att.provider])

/-- vas.py lines 2452-2700, the earlier `buy_airtime` evolution: identical
shape but the row is created with status PENDING (line 2544), the failure
update writes `errorMessage`, and promotion to SUCCESS does not clear a
failure reason. -/
def legacy_buy_airtime (uid phone_number network : String) (amount : Int)
    (pricing : Pricing) (newId : Nat) (request_id : String) (now : Nat)
    (monnifyCall peyflexCall : Except String ApiResp) (db : DB) :
    Resp × DB × List Ev :=
  if phone_number = "" ∨ network = "" ∨ amount ≤ 0 then
    ({ code := 400, ok := false, message := "Invalid request data" }, db, [])
  else if amount < 100 ∨ 5000 < amount then
    ({ code := 400, ok := false, message := "Amount must be between 100 and 5000" }, db, [])
  else
    let selling_price := pricing.selling_price
    let is_emergency_pricing := 1584 * amount ≤ 1000 * pricing.cost_price
    match check_pending_transaction db uid TxnType.AIRTIME selling_price phone_number now with
    | some _ =>
        ({ code := 409, ok := false,
           message := "A similar transaction is already being processed. Please wait." }, db, [])
    | none =>
        match findWallet db uid with
        | none =>
            ({ code := 404, ok := false,
               message := "Wallet not found. Please create a wallet first." }, db, [])
        | some wallet =>
            let total_amount := selling_price
            if wallet.balance < total_amount then
              ({ code := 400, ok := false, message := "Insufficient wallet balance" }, db, [])
            else
              let vas_transaction := legacyAirtimeTxnRow uid phone_number network amount
                selling_price newId request_id now
              let db1 := { db with txns := db.txns ++ [vas_transaction] }
              let att := attempt_airtime monnifyCall peyflexCall
              if att.success = false then
                let db2 := { db1 with
                  txns := updateFirst (fun t => t.id = newId) (legacySetFailedUpdate att.error_message) db1.txns }
                ({ code := 500, ok := false, message := "Purchase failed" }, db2,
                 Ev.insertTxn vas_transaction :: att.events ++ [Ev.setTxnFailed att.error_message])
              else
                let db2 := updateWalletBalance db1 uid
                  (debitWalletWrite wallet.balance total_amount)
                let db3 := { db2 with
                  txns := updateFirst (fun t => t.id = newId) (legacySetSuccessUpdate att.provider) db2.txns }
                let db4 :=
                  if 0 < pricing.margin then
                    { db3 with revenue := db3.revenue ++
                        [{ rtype := "VAS_MARGIN", category := "AIRTIME_MARGIN",
                           amount := pricing.margin, userId := uid,
                           relatedTransaction := toString newId }] }
                  else db3
                let db5 :=
                  if is_emergency_pricing then
                    let tagged := tag_emergency_transaction db4 newId pricing.cost_price
                      "airtime" network now
                    { tagged with notifications := tagged.notifications + 1 }
                  else db4
                let db6 := { db5 with expenses := db5.expenses + 1 }
                ({ code := 200, ok := true, message := "Airtime purchase successful" }, db6,
                 Ev.insertTxn vas_transaction :: att.events ++
                   [Ev.debitWallet total_amount, Ev.setTxnSuccess att.provider])

/-- The `eventData` object of the classic Monnify webhook shape. -/
structure EventData where
  amountPaid : Int
  transactionReference : String
  paymentReference : String
  customerEmail : String
  productType : Option String
  productReference : String
deriving DecidableEq, Repr

/-- The parsed webhook JSON.  `eventData` is the nested classic shape;
the `...Top` fields are the flatter shape's top-level keys (`none` =
key absent, mirroring `data.get(key, default)`). -/
structure WebhookEvent where
  eventType : Option String
  paymentStatus : String
  completed : Bool
  eventData : Option EventData
  transactionReferenceTop : Option String
  accountReference : String
  amountPaidTop : Option Int
  paymentReferenceTop : Option String
  customerEmailTop : Option String
  customerNestedEmail : String
deriving DecidableEq, Repr

/-- An inbound webhook request: the raw body, the `monnify-signature`
header, and the parsed JSON of the body. -/
structure WebhookReq where
  rawBody : String
  signatureHeader : String
  event : WebhookEvent
deriving DecidableEq, Repr

/-- The values extracted by the funding branch (vas.py lines 2241-2277). -/
structure FundingInfo where
  account_ref : String
  amount_paid : Int
  transaction_reference : String
  payment_reference : String
  customer_email : String
deriving DecidableEq, Repr

/-- vas.py lines 2250-2277: extraction handling both webhook shapes. -/
def extract_funding (data : WebhookEvent) : FundingInfo :=
  let base : FundingInfo :=
    match data.eventData with
    | some event_data =>
        { account_ref :=
            if event_data.productType = some "RESERVED_ACCOUNT" then
              event_data.productReference
            else "",
          amount_paid := event_data.amountPaid,
          transaction_reference := event_data.transactionReference,
          payment_reference := event_data.paymentReference,
          customer_email := event_data.customerEmail }
    | none =>
        { account_ref := "", amount_paid := 0, transaction_reference := "",
          payment_reference := "", customer_email := "" }
  if base.account_ref = "" then
    let account_ref := data.accountReference
    if account_ref ≠ "" then
      let customer_email := data.customerEmailTop.getD base.customer_email
      { account_ref := account_ref,
        amount_paid := data.amountPaidTop.getD base.amount_paid,
        transaction_reference := data.transactionReferenceTop.getD base.transaction_reference,
        payment_reference := data.paymentReferenceTop.getD base.payment_reference,
        customer_email :=
          if customer_email = "" then data.customerNestedEmail else customer_email }
    else base
  else base

/-- Python `str.isdigit`. -/
def pyIsDigit (s : String) : Bool :=
  !s.data.isEmpty && s.data.all Char.isDigit

/-- Python `str.lstrip('0123456789')`. -/
def pyLstripDigits (s : String) : String :=
  ⟨s.data.dropWhile Char.isDigit⟩

/-- vas.py lines 2297-2310: resolve the owning user from the account
reference (FICORE prefix) or the customer email. -/
def resolve_user_id (f : FundingInfo) (db : DB) : String :=
  let fromRef :=
    if f.account_ref ≠ "" then
      let cleaned := pyUpper (pyRemoveChar '_' (pyRemoveChar '-' (pyRemoveChar ' ' f.account_ref)))
      if pyStartsWith cleaned "FICORE" then
        let user_part := pyDrop cleaned 6
        if pyIsDigit user_part then pyLstripDigits user_part else user_part
      else ""
    else ""
  if fromRef ≠ "" then fromRef
  else if f.customer_email ≠ "" then
    match db.users.find? (fun u => u.email = f.customer_email) with
    | some u => u.id
    | none => ""
  else ""

/-- vas.py lines 2312-2338: the KYC pending-transaction fallback match. -/
def find_pending_kyc (f : FundingInfo) (db : DB) : Option Txn :=
  if 70 ≤ f.amount_paid then
    match db.txns.find? (fun t =>
        t.monnifyTransactionReference = some f.transaction_reference &&
        t.status = TxnStatus.PENDING_PAYMENT && t.type_ = TxnType.KYC_VERIFICATION) with
    | some t => some t
    | none =>
        match (if f.payment_reference ≠ "" && pyStartsWith f.payment_reference "VER_" then
                 db.txns.find? (fun t =>
                   t.paymentReference = some f.payment_reference &&
                   t.status = TxnStatus.PENDING_PAYMENT && t.type_ = TxnType.KYC_VERIFICATION)
               else none) with
        | some t => some t
        | none =>
            if pyStartsWith f.transaction_reference "FICORE_QP_" then
              db.txns.find? (fun t =>
                t.transactionReference = some f.transaction_reference &&
                t.status = TxnStatus.PENDING_PAYMENT && t.type_ = TxnType.KYC_VERIFICATION)
            else none
  else none

/-- vas.py lines 1925-1945: the premium check (subscription active, or
subscription window open, or admin). -/
def is_premium_user (db : DB) (user_id : String) (now : Nat) : Bool :=
  match db.users.find? (fun u => u.id = user_id) with
  | none => false
  | some user =>
      if user.subscriptionStatus = some "active" then true
      else if user.subscriptionStartDate.isSome && user.subscriptionEndDate.isSome then
        match user.subscriptionEndDate with
        | some subscription_end => decide (now < subscription_end)
        | none => false
      else user.isAdmin

/-- vas.py line 40. -/
def VAS_TRANSACTION_FEE : Int := 30

/-- The deposit fee the funding path applies (vas.py lines 1949-1950):
30 naira for non-premium users, waived for premium. -/
def deposit_fee_for (db : DB) (user_id : String) (now : Nat) : Int :=
  if is_premium_user db user_id now then 0 else VAS_TRANSACTION_FEE

/-- The WALLET_FUNDING row the funding path inserts (vas.py lines
1958-1972): keyed by the provider transaction reference on both the
`reference` and unique-indexed `transactionReference` fields. -/
def fundingTxnRow (user_id : String) (amount_to_credit amount_paid deposit_fee : Int)
    (transaction_reference : String) (newId now : Nat) : Txn :=
  { blankTxn with
    id := newId, userId := user_id, type_ := TxnType.WALLET_FUNDING,
    amount := amount_to_credit, amountPaid := amount_paid,
    depositFee := deposit_fee,
    reference := some transaction_reference,
    transactionReference := some transaction_reference,
    status := TxnStatus.SUCCESS, provider := some ProviderName.monnify,
    createdAt := now }

/-- vas.py lines 1910-2039, `process_reserved_account_funding_inline`:
idempotent funding credit.  `newId` is the fresh ObjectId of the inserted
row. -/
def process_reserved_account_funding_inline (user_id : String) (amount_paid : Int)
    (transaction_reference : String) (now : Nat) (newId : Nat) (db : DB) : Resp × DB :=
  match db.txns.find? (fun t => t.reference = some transaction_reference) with
  | some _ => ({ code := 200, ok := true, message := "Already processed" }, db)
  | none =>
      match findWallet db user_id with
      | none => ({ code := 404, ok := false, message := "Wallet not found" }, db)
      | some wallet =>
          let deposit_fee := deposit_fee_for db user_id now
          let amount_to_credit := amount_paid - deposit_fee
          if amount_to_credit ≤ 0 then
            ({ code := 400, ok := false, message := "Amount too small to process" }, db)
          else
            let transaction := fundingTxnRow user_id amount_to_credit amount_paid
              deposit_fee transaction_reference newId now
            -- insert_one: the unique index on transactionReference raises
            -- DuplicateKeyError, answered with success (lines 1975-1979)
            if db.txns.any (fun t => t.transactionReference = some transaction_reference) then
              ({ code := 200, ok := true, message := "Already processed" }, db)
            else
              let db1 := { db with txns := db.txns ++ [transaction] }
              let db2 := updateWalletBalance db1 user_id
                (creditWalletWrite wallet.balance amount_to_credit)
              let db3 :=
                if 0 < deposit_fee then
                  { db2 with revenue := db2.revenue ++
                      [{ rtype := "SERVICE_FEE", category := "DEPOSIT_FEE",
                         amount := deposit_fee, userId := user_id,
                         relatedTransaction := transaction_reference }] }
                else db2
              let db4 := { db3 with notifications := db3.notifications + 1 }
              ({ code := 200, ok := true, message := "Wallet funded successfully" }, db4)

/-- vas.py lines 2041-2141, `process_reserved_account_funding_update_only`:
credit the wallet without inserting a transaction. -/
def process_reserved_account_funding_update_only (user_id : String) (amount_paid : Int)
    (transaction_reference : String) (now : Nat) (db : DB) : Resp × DB :=
  match findWallet db user_id with
  | none => ({ code := 404, ok := false, message := "Wallet not found" }, db)
  | some wallet =>
      let deposit_fee := deposit_fee_for db user_id now
      let amount_to_credit := amount_paid - deposit_fee
      if amount_to_credit ≤ 0 then
        ({ code := 400, ok := false, message := "Amount too small to process" }, db)
      else
        let db1 := updateWalletBalance db user_id
          (creditWalletWrite wallet.balance amount_to_credit)
        let db2 :=
          if 0 < deposit_fee then
            { db1 with revenue := db1.revenue ++
                [{ rtype := "SERVICE_FEE", category := "DEPOSIT_FEE",
                   amount := deposit_fee, userId := user_id,
                   relatedTransaction := transaction_reference }] }
          else db1
        let db3 := { db2 with notifications := db2.notifications + 1 }
        ({ code := 200, ok := true, message := "Wallet funded successfully" }, db3)

/-- vas.py lines 2214-2230: the VAS-confirmation update (`promote` is the
found transaction having status PENDING). -/
def vasConfirmUpdate (promote : Bool) (t : Txn) : Txn :=
  if promote then { t with providerConfirmed := true, status := TxnStatus.SUCCESS }
  else { t with providerConfirmed := true }

/-- vas.py lines 2360-2370: promote an existing non-SUCCESS funding
transaction to SUCCESS. -/
def fundingExistingUpdate (amount_paid : Int) (t : Txn) : Txn :=
  { t with
    status := TxnStatus.SUCCESS,
    amountPaid := amount_paid,
    provider := some ProviderName.monnify }

/-- vas.py lines 2388-2399: promote a pending KYC payment to SUCCESS. -/
def kycSuccessUpdate (amount_paid : Int) (transaction_reference : String) (t : Txn) : Txn :=
  { t with
    status := TxnStatus.SUCCESS,
    amountPaid := amount_paid,
    reference := some transaction_reference,
    provider := some ProviderName.monnify }

/-- The transaction reference used for VAS-confirmation detection
(vas.py lines 2189-2194). -/
def vas_detect_ref (data : WebhookEvent) : String :=
  match data.eventData with
  | some event_data => event_data.transactionReference
  | none => data.transactionReferenceTop.getD ""

/-- The VAS-confirmation query (vas.py lines 2198-2205). -/
def find_existing_vas_txn (db : DB) (ref : String) : Option Txn :=
  db.txns.find? (fun t =>
    (t.requestId = some ref || t.transactionReference = some ref) &&
    (t.type_ = TxnType.AIRTIME || t.type_ = TxnType.DATA))

/-- vas.py lines 1906-2446, `monnify_webhook`: HMAC-verified webhook
handler.  `hmacSha512 secret payload` is the abstract keyed-hash digest,
`newId` the ObjectId a funding insert would use. -/
def monnify_webhook (hmacSha512 : String → String → String) (secret : String)
    (req : WebhookReq) (now : Nat) (newId : Nat) (db : DB) : Resp × DB :=
  let signature := req.signatureHeader
  let computed_signature := hmacSha512 secret req.rawBody
  if signature ≠ computed_signature then
    ({ code := 401, ok := false, message := "Invalid signature" }, db)
  else
    let data := req.event
    let payment_status := pyUpper data.paymentStatus
    let should_process :=
      data.eventType = some "SUCCESSFUL_TRANSACTION" ∨
      (payment_status = "PAID" ∧ data.completed)
    if should_process then
      let vas_ref := vas_detect_ref data
      match find_existing_vas_txn db vas_ref with
      | some existing_vas_txn =>
          let promote := existing_vas_txn.status = TxnStatus.PENDING
          let db1 := { db with
            txns := updateFirst (fun t => t.id = existing_vas_txn.id) (vasConfirmUpdate promote) db.txns }
          ({ code := 200, ok := true, message := "VAS confirmation processed" }, db1)
      | none =>
          let f := extract_funding data
          if f.amount_paid ≤ 0 then
            ({ code := 200, ok := true, message := "Zero amount ignored" }, db)
          else
            let user_id := resolve_user_id f db
            if user_id ≠ "" then
              match db.txns.find? (fun t => t.reference = some f.transaction_reference) with
              | some existing =>
                  if existing.status = TxnStatus.SUCCESS then
                    ({ code := 200, ok := true, message := "Already processed" }, db)
                  else
                    let db1 := { db with
                      txns := updateFirst (fun t => t.id = existing.id) (fundingExistingUpdate f.amount_paid) db.txns }
                    process_reserved_account_funding_update_only user_id f.amount_paid
                      f.transaction_reference now db1
              | none =>
                  process_reserved_account_funding_inline user_id f.amount_paid
                    f.transaction_reference now newId db
            else
              match find_pending_kyc f db with
              | some pending_txn =>
                  -- the query restricts the type to KYC_VERIFICATION, so the
                  -- WALLET_FUNDING elif of lines 2423-2424 is unreachable
                  if f.amount_paid < 70 then
                    ({ code := 400, ok := false, message := "Insufficient payment amount" }, db)
                  else
                    let db1 := { db with
                      txns := updateFirst (fun t => t.id = pending_txn.id) (kycSuccessUpdate f.amount_paid f.transaction_reference) db.txns }
                    let db2 := { db1 with revenue := db1.revenue ++
                      [{ rtype := "SERVICE_FEE", category := "KYC_VERIFICATION",
                         amount := 70, userId := pending_txn.userId,
                         relatedTransaction := f.transaction_reference }] }
                    ({ code := 200, ok := true,
                       message := "KYC verification payment processed successfully" }, db2)
              | none =>
                  ({ code := 200, ok := true, message := "Acknowledged but unprocessed" }, db)
    else
      ({ code := 200, ok := true, message := "Webhook received" }, db)

/-- Scan of an event trace: every `debitWallet` is preceded by some
`providerSuccess` (the flag is whether a success has been seen). -/
def debitsPrecededBySuccess : List Ev → Bool → Bool
  | [], _ => true
  | Ev.debitWallet _ :: rest, seen => seen && debitsPrecededBySuccess rest seen
  | Ev.providerSuccess _ :: rest, _ => debitsPrecededBySuccess rest true
  | _ :: rest, seen => debitsPrecededBySuccess rest seen

/-- Number of wallet-debit events in a trace. -/
def debitCount (tr : List Ev) : Nat :=
  tr.countP (fun e => match e with | Ev.debitWallet _ => true | _ => false)

/-- Number of `callProvider p` events in a trace. -/
def callCount (p : ProviderName) (tr : List Ev) : Nat :=
  tr.countP (fun e => match e with
    | Ev.callProvider q => q = p
    | _ => false)

/-- The provider-call events of a trace, in order. -/
def callsOf (tr : List Ev) : List ProviderName :=
  tr.filterMap (fun e => match e with
    | Ev.callProvider q => some q
    | _ => none)

/-- Number of WALLET_FUNDING transactions carrying a given provider
reference. -/
def fundingTxnCount (db : DB) (ref : String) : Nat :=
  db.txns.countP (fun t =>
    t.type_ = TxnType.WALLET_FUNDING && t.reference = some ref)

/-- Modelled from the spec: `process_emergency_recoveries` lives in
utils/emergency_pricing_recovery.py, which is not under src/.  Per spec
section 4.5 the job scans PENDING_RECOVERY tags past their deadline,
credits the overage (actual emergency cost minus normal expected cost) to
the affected user, notifies them and closes the tag; it never touches a
Transaction's status. -/
def process_emergency_recoveries (db : DB) (normalExpectedCost : Int) (now : Nat) : DB :=
  db.emergencyTags.foldl (fun acc tag =>
    if tag.status = "PENDING_RECOVERY" && tag.recoveryDeadline ≤ now then
      let uid :=
        match acc.txns.find? (fun t => t.id = tag.transactionId) with
        | some t => t.userId
        | none => ""
      let overage := tag.costPrice - normalExpectedCost
      let acc1 := updateWalletBalance acc uid (WalletWrite.inc overage)
      let acc2 := { acc1 with emergencyTags := acc1.emergencyTags.map (fun (tg : EmergencyTag) =>
        if tg.transactionId = tag.transactionId && tg.status = "PENDING_RECOVERY" then
          { tg with status := "completed" }
        else tg) }
      { acc2 with notifications := acc2.notifications + 1 }
    else acc) db

/-- One operation of the modelled system: the two current purchase flows,
the legacy purchase flow, the webhook handler, and the (spec-modelled)
reconciliation job. -/
inductive Op
  | airtime (uid phone_number network : String) (amount : Int) (pricing : Pricing)
      (newId : Nat) (request_id : String) (now : Nat)
      (monnifyCall peyflexCall : Except String ApiResp)
  | dataPurchase (uid phone_number network data_plan_id data_plan_name : String)
      (amount : Int) (plan_exists_ok : Bool) (newId : Nat) (request_id : String)
      (now : Nat) (monnifyCall peyflexCall : Except String ApiResp)
  | legacyAirtime (uid phone_number network : String) (amount : Int) (pricing : Pricing)
      (newId : Nat) (request_id : String) (now : Nat)
      (monnifyCall peyflexCall : Except String ApiResp)
  | webhook (hmacSha512 : String → String → String) (secret : String)
      (req : WebhookReq) (now : Nat) (newId : Nat)
  | recovery (normalExpectedCost : Int) (now : Nat)

/-- Effect of one operation on the database. -/
def applyOp (op : Op) (db : DB) : DB :=
  match op with
  | Op.airtime uid ph nw amount pricing newId rid now m p =>
      (buy_airtime uid ph nw amount pricing newId rid now m p db).2.1
  | Op.dataPurchase uid ph nw pid pname amount pv newId rid now m p =>
      (buy_data uid ph nw pid pname amount pv newId rid now m p db).2.1
  | Op.legacyAirtime uid ph nw amount pricing newId rid now m p =>
      (legacy_buy_airtime uid ph nw amount pricing newId rid now m p db).2.1
  | Op.webhook hm secret req now newId =>
      (monnify_webhook hm secret req now newId db).2
  | Op.recovery c now =>
      process_emergency_recoveries db c now

/-- The ObjectId an operation would generate for a row it creates is fresh
(ObjectIds are globally unique). -/
def opFresh (op : Op) (db : DB) : Prop :=
  match op with
  | Op.airtime _ _ _ _ _ newId _ _ _ _ => ∀ t ∈ db.txns, t.id ≠ newId
  | Op.dataPurchase _ _ _ _ _ _ _ newId _ _ _ _ => ∀ t ∈ db.txns, t.id ≠ newId
  | Op.legacyAirtime _ _ _ _ _ newId _ _ _ _ => ∀ t ∈ db.txns, t.id ≠ newId
  | Op.webhook _ _ _ _ newId => ∀ t ∈ db.txns, t.id ≠ newId
  | Op.recovery _ _ => True

/-- Status evolution between two ledger states: every transaction keeps
its identity; a SUCCESS transaction stays SUCCESS; a FAILED transaction
can only stay FAILED or be promoted to SUCCESS. -/
def StatusMono (l l' : List Txn) : Prop :=
  ∀ id s, statusOfL l id = some s →
    ∃ s', statusOfL l' id = some s' ∧
      (s = TxnStatus.SUCCESS → s' = TxnStatus.SUCCESS) ∧
      (s = TxnStatus.FAILED → s' = TxnStatus.FAILED ∨ s' = TxnStatus.SUCCESS)

/-- Sequential delivery of the same webhook request with the given fresh
ObjectIds. -/
def deliverTimes (hmacSha512 : String → String → String) (secret : String)
    (req : WebhookReq) (now : Nat) (ids : List Nat) (db : DB) : DB :=
  ids.foldl (fun acc id => (monnify_webhook hmacSha512 secret req now id acc).2) db

/-- Whether a provider adapter call returned (did not raise). -/
def exOk (e : Except String ApiResp) : Bool :=
  match e with
  | Except.ok _ => true
  | Except.error _ => false

/-- `find_one` on `vas_transactions` by `_id`. -/
def txnById (db : DB) (id : Nat) : Option Txn :=
  db.txns.find? (fun t => t.id = id)

/-- The transaction document carried by the first event of a purchase
trace, when that event is the row insert. -/
def firstInsertedTxn (tr : List Ev) : Option Txn :=
  match tr.head? with
  | some (Ev.insertTxn t) => some t
  | _ => none

/-! Concrete fixtures used by witnesses and counterexamples. -/

/-- A concrete stand-in for the keyed-hash primitive. -/
def hmFix (secret payload : String) : String :=
  secret ++ ":" ++ payload

def userA : UserDoc :=
  { id := "USERA", email := "a@x.com", subscriptionStatus := none,
    subscriptionStartDate := none, subscriptionEndDate := none, isAdmin := false }

def walletA : Wallet := { userId := "USERA", balance := 1000 }

/-- Baseline database: one non-premium user with a 1000-naira wallet. -/
def dbA : DB :=
  { txns := [], wallets := [walletA], users := [userA], revenue := [],
    mismatchLogs := [], emergencyTags := [], notifications := 0,
    expenses := 0, balancePushes := 0 }

/-- An unresolved (FAILED, reason "Transaction in progress") airtime
transaction 100 seconds old, matching user / type / amount / phone of the
request in claim C8's counterexample. -/
def inflightTxn : Txn :=
  { blankTxn with
    id := 1, userId := "USERA", type_ := TxnType.AIRTIME, amount := 500,
    sellingPrice := 500, phoneNumber := "08012345678",
    status := TxnStatus.FAILED,
    failureReason := some "Transaction in progress",
    requestId := some "REQ9", transactionReference := some "REQ9",
    createdAt := 900 }

def db_inflight : DB := { dbA with txns := [inflightTxn] }

/-- The same transaction in the legacy PENDING state. -/
def pendingTxn : Txn := { inflightTxn with status := TxnStatus.PENDING, failureReason := none }

def db_pending : DB := { dbA with txns := [pendingTxn] }

def pricingFix : Pricing := { selling_price := 500, cost_price := 495, margin := 5 }

/-- A provider response matching the plan "MTN 1GB 30 Days" at 500 naira. -/
def apiOkResp : ApiResp :=
  { description := some "MTN 1GB 30 Days", vendAmount := some 500, payableAmount := none }

/-- A provider response delivering a different, cheaper plan than the
requested "MTN 2GB 30 Days" at 1000 naira. -/
def apiMismatchResp : ApiResp :=
  { description := some "MTN 230MB monthly", vendAmount := some 200, payableAmount := none }

/-- A classic-shape funding webhook event: reserved-account reference
FICORE USERA, 1000 naira paid, provider reference TXN123. -/
def fundingEvent : WebhookEvent :=
  { eventType := some "SUCCESSFUL_TRANSACTION", paymentStatus := "PAID", completed := true,
    eventData := some
      { amountPaid := 1000, transactionReference := "TXN123",
        paymentReference := "PAY1", customerEmail := "a@x.com",
        productType := some "RESERVED_ACCOUNT", productReference := "FICORE USERA" },
    transactionReferenceTop := none, accountReference := "", amountPaidTop := none,
    paymentReferenceTop := none, customerEmailTop := none, customerNestedEmail := "" }

/-- The funding webhook request, correctly signed under `hmFix`. -/
def fundingReq : WebhookReq :=
  { rawBody := "rawbody", signatureHeader := hmFix "sec" "rawbody", event := fundingEvent }

/-- The same request with a wrong signature header. -/
def badSigReq : WebhookReq :=
  { fundingReq with signatureHeader := "forged" }

/-- A confirmation webhook event whose reference matches transaction
REQ9. -/
def confirmEvent : WebhookEvent :=
  { fundingEvent with
    eventData := some
      { amountPaid := 500, transactionReference := "REQ9",
        paymentReference := "", customerEmail := "",
        productType := none, productReference := "" } }

def confirmReq : WebhookReq :=
  { rawBody := "confirmbody", signatureHeader := hmFix "sec" "confirmbody",
    event := confirmEvent }

/-- The delivered amount `validate_delivered_plan` extracts from a
provider response (vendAmount, else payableAmount, else 0). -/
def delivered_amount_of (r : ApiResp) : Int :=
  match r.vendAmount with
  | some v => v
  | none =>
      match r.payableAmount with
      | some v => v
      | none => 0

/-- The delivered plan name `validate_delivered_plan` extracts
(description, else "Unknown"). -/
def delivered_name_of (r : ApiResp) : String :=
  match r.description with
  | some d => d
  | none => "Unknown"

/-! General lemmas about the storage primitives. -/

theorem statusOfL_append {l : List Txn} {id : Nat} {s : TxnStatus}
    (h : statusOfL l id = some s) (l₂ : List Txn) :
    statusOfL (l ++ l₂) id = some s := by
  unfold statusOfL at h ⊢
  rw [List.find?_append]
  cases hf : List.find? (fun t => t.id = id) l with
  | none => rw [hf] at h; simp at h
  | some t => rw [hf] at h; simpa using h

theorem updateFirst_cons (p : Txn → Bool) (f : Txn → Txn) (t : Txn) (ts : List Txn) :
    updateFirst p f (t :: ts) = if p t then f t :: ts else t :: updateFirst p f ts := rfl

theorem statusMono_rfl (l : List Txn) : StatusMono l l := by
  intro id s h
  exact ⟨s, h, fun hs => hs, fun hf => Or.inl hf⟩

theorem statusMono_trans {l₁ l₂ l₃ : List Txn}
    (h12 : StatusMono l₁ l₂) (h23 : StatusMono l₂ l₃) : StatusMono l₁ l₃ := by
  intro id s h
  obtain ⟨s2, hs2, hS2, hF2⟩ := h12 id s h
  obtain ⟨s3, hs3, hS3, hF3⟩ := h23 id s2 hs2
  refine ⟨s3, hs3, ?_, ?_⟩
  · intro hs; exact hS3 (hS2 hs)
  · intro hf
    rcases hF2 hf with h2 | h2
    · exact hF3 h2
    · exact Or.inr (hS3 h2)

theorem statusMono_append (l l₂ : List Txn) : StatusMono l (l ++ l₂) := by
  intro id s h
  exact ⟨s, statusOfL_append h l₂, fun hs => hs, fun hf => Or.inl hf⟩

theorem updateFirst_length (p : Txn → Bool) (f : Txn → Txn) (l : List Txn) :
    (updateFirst p f l).length = l.length := by
  induction l with
  | nil => rfl
  | cons t ts ih =>
      unfold updateFirst
      by_cases h : p t
      · simp [h]
      · simp [h, ih]

theorem updateFirst_append_false {p : Txn → Bool} {l : List Txn}
    (h : ∀ u ∈ l, p u = false) (f : Txn → Txn) (ts : List Txn) :
    updateFirst p f (l ++ ts) = l ++ updateFirst p f ts := by
  induction l with
  | nil => rfl
  | cons u us ih =>
      have hu : p u = false := h u (by simp)
      have hus : ∀ v ∈ us, p v = false := fun v hv => h v (by simp [hv])
      simp only [List.cons_append, updateFirst_cons, hu, Bool.false_eq_true, if_false]
      rw [ih hus]

theorem find?_append_right_of_false {p : Txn → Bool} {l : List Txn}
    (h : ∀ u ∈ l, p u = false) (ts : List Txn) :
    List.find? p (l ++ ts) = List.find? p ts := by
  rw [List.find?_append]
  have hnone : List.find? p l = none := List.find?_eq_none.mpr (by
    intro x hx
    simp [h x hx])
  rw [hnone, Option.none_or]

theorem statusMono_updateFirst (p : Txn → Bool) (f : Txn → Txn)
    (hid : ∀ t, (f t).id = t.id)
    (hS : ∀ t, t.status = TxnStatus.SUCCESS → (f t).status = TxnStatus.SUCCESS)
    (hF : ∀ t, t.status = TxnStatus.FAILED →
      (f t).status = TxnStatus.FAILED ∨ (f t).status = TxnStatus.SUCCESS)
    (l : List Txn) : StatusMono l (updateFirst p f l) := by
  induction l with
  | nil => intro id s h; simp [statusOfL] at h
  | cons t ts ih =>
      intro id s h
      unfold updateFirst
      by_cases hpt : p t
      · simp only [if_pos hpt]
        by_cases hidt : t.id = id
        · unfold statusOfL at h
          rw [List.find?_cons_of_pos _ (by simp [hidt])] at h
          simp only [Option.map_some'] at h
          obtain rfl : t.status = s := by injection h
          refine ⟨(f t).status, ?_, fun hs => hS t hs, fun hf => hF t hf⟩
          unfold statusOfL
          rw [List.find?_cons_of_pos _ (by simp [hid t, hidt])]
          simp
        · unfold statusOfL at h ⊢
          rw [List.find?_cons_of_neg _ (by simp [hidt])] at h
          rw [List.find?_cons_of_neg _ (by simp [hid t, hidt])]
          exact ⟨s, h, fun hs => hs, fun hf => Or.inl hf⟩
      · simp only [if_neg hpt]
        by_cases hidt : t.id = id
        · unfold statusOfL at h ⊢
          rw [List.find?_cons_of_pos _ (by simp [hidt])] at h
          rw [List.find?_cons_of_pos _ (by simp [hidt])]
          simp only [Option.map_some'] at h ⊢
          obtain rfl : t.status = s := by injection h
          exact ⟨t.status, rfl, fun hs => hs, fun hf => Or.inl hf⟩
        · unfold statusOfL at h ⊢
          rw [List.find?_cons_of_neg _ (by simp [hidt])] at h
          rw [List.find?_cons_of_neg _ (by simp [hidt])]
          exact ih id s h

theorem find?_wallets_map (l : List Wallet) (uid : String) (wr : WalletWrite) :
    List.find? (fun w => w.userId = uid)
      (l.map (fun wl => if wl.userId = uid then
        { wl with balance := applyWalletWrite wl.balance wr } else wl)) =
    (List.find? (fun w => w.userId = uid) l).map
      (fun w => { w with balance := applyWalletWrite w.balance wr }) := by
  induction l with
  | nil => rfl
  | cons w ws ih =>
      by_cases h : w.userId = uid
      · simp only [List.map_cons, if_pos h]
        rw [List.find?_cons_of_pos _ (by simp [h]),
            List.find?_cons_of_pos _ (by simp [h])]
        simp
      · simp only [List.map_cons, if_neg h]
        rw [List.find?_cons_of_neg _ (by simp [h]),
            List.find?_cons_of_neg _ (by simp [h])]
        exact ih

theorem walletBalance_update (db : DB) (uid : String) (wr : WalletWrite) :
    walletBalance (updateWalletBalance db uid wr) uid =
      match findWallet db uid with
      | some w => applyWalletWrite w.balance wr
      | none => 0 := by
  unfold walletBalance updateWalletBalance findWallet
  simp only [find?_wallets_map]
  cases List.find? (fun w => w.userId = uid) db.wallets with
  | none => rfl
  | some w => rfl

/-! Claim C7: webhook signature enforcement. -/

/-- C7: `monnify_webhook` recomputes the keyed hash of the raw request body
with the shared secret; whenever the supplied signature header differs from
the recomputed digest, the handler answers 401 "Invalid signature" and the
database (transactions, wallets, everything) is returned unchanged, without
processing the body's business content. -/
theorem C7_unsigned_webhook_rejected (hmacSha512 : String → String → String)
    (secret : String) (req : WebhookReq) (now newId : Nat) (db : DB)
    (h : req.signatureHeader ≠ hmacSha512 secret req.rawBody) :
    monnify_webhook hmacSha512 secret req now newId db =
      ({ code := 401, ok := false, message := "Invalid signature" }, db) := by
  unfold monnify_webhook
  simp [h]

theorem C7_unsigned_webhook_rejected_witness :
    badSigReq.signatureHeader ≠ hmFix "sec" badSigReq.rawBody ∧
    monnify_webhook hmFix "sec" badSigReq 1000 7 dbA =
      ({ code := 401, ok := false, message := "Invalid signature" }, dbA) :=
  ⟨by decide, C7_unsigned_webhook_rejected hmFix "sec" badSigReq 1000 7 dbA (by decide)⟩

/-! Claim C10: wallet mutations are read-modify-write, not atomic. -/

/-- C10 (code bug): the wallet writes the code actually issues — the
funding credit of vas.py lines 1982-1987 and the purchase debit of
vas_purchase.py lines 1852-1857 — are `$set` writes of an
application-computed value, never the atomic `$inc` the spec mandates;
when two concurrent credits of 100 and 200 both read balance 0, the
second `$set` overwrites the first and the final balance is 200 (one
update lost), while atomic increments would give 300. -/
theorem C10_wallet_write_read_modify_write :
    (∀ b a : Int, (creditWalletWrite b a).isAtomicInc = false) ∧
    (∀ b a : Int, (debitWalletWrite b a).isAtomicInc = false) ∧
    applyWalletWrite (applyWalletWrite 0 (creditWalletWrite 0 100))
      (creditWalletWrite 0 200) = 200 ∧
    applyWalletWrite (applyWalletWrite 0 (WalletWrite.inc 100))
      (WalletWrite.inc 200) = 300 :=
  ⟨fun _ _ => rfl, fun _ _ => rfl, rfl, rfl⟩

/-! Claim C8: the pre-purchase duplicate check. -/

/-- C8 (amended): before opening a new airtime purchase, the duplicate
check looks for an existing Transaction with the same user, type, amount
and phone number whose status is PENDING (not FAILED-with-
reason-in-progress), created within the last 5 minutes; when one exists
the request is rejected with HTTP 409 and the database is returned
unchanged — no new Transaction, no balance mutation. -/
theorem C8_duplicate_check_pending (uid phone_number network : String) (amount : Int)
    (pricing : Pricing) (newId : Nat) (request_id : String) (now : Nat)
    (monnifyCall peyflexCall : Except String ApiResp) (db : DB) (t : Txn)
    (hph : ¬ phone_number = "") (hnw : ¬ network = "")
    (ha0 : ¬ amount ≤ 0) (ha1 : ¬ amount < 100) (ha2 : ¬ 5000 < amount)
    (hdup : check_pending_transaction db uid TxnType.AIRTIME pricing.selling_price
      phone_number now = some t) :
    buy_airtime uid phone_number network amount pricing newId request_id now
      monnifyCall peyflexCall db =
    ({ code := 409, ok := false,
       message := "A similar transaction is already being processed. Please wait." },
     db, []) := by
  unfold buy_airtime
  rw [if_neg (by push_neg; exact ⟨hph, hnw, lt_of_not_ge ha0⟩)]
  rw [if_neg (by push_neg; exact ⟨le_of_not_gt ha1, le_of_not_gt ha2⟩)]
  simp only [hdup]

theorem C8_duplicate_check_pending_witness :
    check_pending_transaction db_pending "USERA" TxnType.AIRTIME
      pricingFix.selling_price "08012345678" 1000 = some pendingTxn ∧
    buy_airtime "USERA" "08012345678" "MTN" 500 pricingFix 2 "REQ1" 1000
      (Except.ok apiOkResp) (Except.error "down") db_pending =
    ({ code := 409, ok := false,
       message := "A similar transaction is already being processed. Please wait." },
     db_pending, []) :=
  ⟨by decide,
   C8_duplicate_check_pending "USERA" "08012345678" "MTN" 500 pricingFix 2 "REQ1" 1000
     (Except.ok apiOkResp) (Except.error "down") db_pending pendingTxn
     (by decide) (by decide) (by decide) (by decide) (by decide) (by decide)⟩

/-- C8 (counterexample): an unresolved FAILED-"Transaction in progress"
airtime transaction 100 seconds old with the same user, type, amount and
phone (the duplicate the claim says is rejected) does not block the new
request: the spec-worded duplicate predicate holds, yet `buy_airtime`
completes with HTTP 200 and inserts a second Transaction. -/
theorem C8_duplicate_check_counterexample :
    spec_checkDuplicate db_inflight "USERA" TxnType.AIRTIME 500 "08012345678" 1000 = true ∧
    (buy_airtime "USERA" "08012345678" "MTN" 500 pricingFix 2 "REQ1" 1000
      (Except.ok apiOkResp) (Except.error "down") db_inflight).1.code = 200 ∧
    ((buy_airtime "USERA" "08012345678" "MTN" 500 pricingFix 2 "REQ1" 1000
      (Except.ok apiOkResp) (Except.error "down") db_inflight).2.1).txns.length = 2 := by
  refine ⟨by decide, by decide, by decide⟩

theorem updateFirst_singleton_pos {p : Txn → Bool} {t₀ : Txn} (f : Txn → Txn)
    (h : p t₀ = true) : updateFirst p f [t₀] = [f t₀] := by
  unfold updateFirst
  simp [h]

theorem find?_id_append_fresh {l : List Txn} {nid : Nat}
    (h : ∀ u ∈ l, u.id ≠ nid) (ts : List Txn) :
    List.find? (fun t => t.id = nid) (l ++ ts) = List.find? (fun t => t.id = nid) ts :=
  find?_append_right_of_false (fun u hu => by simp [h u hu]) ts

theorem updateFirst_fresh_append {l : List Txn} {nid : Nat} {t₀ : Txn}
    (h : ∀ u ∈ l, u.id ≠ nid) (f : Txn → Txn) (h0 : t₀.id = nid) :
    updateFirst (fun t => t.id = nid) f (l ++ [t₀]) = l ++ [f t₀] := by
  rw [updateFirst_append_false (fun u hu => by simp [h u hu]) f [t₀],
      updateFirst_singleton_pos f (by simp [h0])]

theorem find?_id_update_fresh {l : List Txn} {nid : Nat} {t₀ : Txn} {f : Txn → Txn}
    (h : ∀ u ∈ l, u.id ≠ nid) (h0 : t₀.id = nid) (hf : (f t₀).id = nid) :
    List.find? (fun t => t.id = nid)
      (updateFirst (fun t => t.id = nid) f (l ++ [t₀])) = some (f t₀) := by
  rw [updateFirst_fresh_append h f h0, find?_id_append_fresh h,
      List.find?_cons_of_pos _ (by simp [hf])]

/-! Claim C4: transaction row lifecycle. -/

/-- C4 (amended): a vas_purchase.py purchase that passes validation creates
its Transaction row with status FAILED and reason "Transaction in
progress" as the first ledger action, before any provider call; promotion
to SUCCESS (clearing the reason, recording the provider) happens only
after a provider attempt succeeded, and on all-provider failure the row
stays FAILED with the reason replaced by the real cause.  The legacy
vas.py `buy_airtime`, however, creates its row with status PENDING, so
"never in a PENDING state" does not hold of every purchase. -/
theorem C4_row_lifecycle (uid phone_number network : String) (amount : Int)
    (pricing : Pricing) (newId : Nat) (request_id : String) (now : Nat)
    (monnifyCall peyflexCall : Except String ApiResp) (db : DB) (w : Wallet)
    (att : AttemptResult) (row legacyRow : Txn) (out : Resp × DB × List Ev)
    (h_att : attempt_airtime monnifyCall peyflexCall = att)
    (h_row : airtimeTxnRow uid phone_number network amount pricing.selling_price
      newId request_id now = row)
    (h_lrow : legacyAirtimeTxnRow uid phone_number network amount pricing.selling_price
      newId request_id now = legacyRow)
    (h_out : buy_airtime uid phone_number network amount pricing newId request_id now
      monnifyCall peyflexCall db = out)
    (hph : ¬ phone_number = "") (hnw : ¬ network = "")
    (ha0 : ¬ amount ≤ 0) (ha1 : ¬ amount < 100) (ha2 : ¬ 5000 < amount)
    (hdup : check_pending_transaction db uid TxnType.AIRTIME pricing.selling_price
      phone_number now = none)
    (hw : findWallet db uid = some w)
    (hbal : ¬ w.balance < pricing.selling_price)
    (hfresh : ∀ t ∈ db.txns, t.id ≠ newId) :
    firstInsertedTxn out.2.2 = some row ∧
    row.status = TxnStatus.FAILED ∧
    row.failureReason = some "Transaction in progress" ∧
    (att.success = true →
      txnById out.2.1 newId = some (setSuccessUpdate att.provider row)) ∧
    (att.success = false →
      txnById out.2.1 newId = some (setFailedUpdate att.error_message row)) ∧
    firstInsertedTxn (legacy_buy_airtime uid phone_number network amount pricing newId
      request_id now monnifyCall peyflexCall db).2.2 = some legacyRow ∧
    legacyRow.status = TxnStatus.PENDING := by
  subst h_att h_row h_lrow h_out
  have hlegacy : firstInsertedTxn (legacy_buy_airtime uid phone_number network amount
      pricing newId request_id now monnifyCall peyflexCall db).2.2 =
      some (legacyAirtimeTxnRow uid phone_number network amount pricing.selling_price
        newId request_id now) := by
    unfold legacy_buy_airtime
    rw [if_neg (by push_neg; exact ⟨hph, hnw, lt_of_not_ge ha0⟩)]
    rw [if_neg (by push_neg; exact ⟨le_of_not_gt ha1, le_of_not_gt ha2⟩)]
    simp only [hdup, hw]
    rw [if_neg hbal]
    by_cases hs : (attempt_airtime monnifyCall peyflexCall).success = false
    · rw [if_pos hs]
      rfl
    · rw [if_neg hs]
      rfl
  refine ⟨?_, rfl, rfl, ?_, ?_, hlegacy, rfl⟩
  · unfold buy_airtime
    rw [if_neg (by push_neg; exact ⟨hph, hnw, lt_of_not_ge ha0⟩)]
    rw [if_neg (by push_neg; exact ⟨le_of_not_gt ha1, le_of_not_gt ha2⟩)]
    simp only [hdup, hw]
    rw [if_neg hbal]
    by_cases hs : (attempt_airtime monnifyCall peyflexCall).success = false
    · rw [if_pos hs]
      rfl
    · rw [if_neg hs]
      rfl
  · intro hsucc
    unfold buy_airtime
    rw [if_neg (by push_neg; exact ⟨hph, hnw, lt_of_not_ge ha0⟩)]
    rw [if_neg (by push_neg; exact ⟨le_of_not_gt ha1, le_of_not_gt ha2⟩)]
    simp only [hdup, hw]
    rw [if_neg hbal]
    rw [if_neg (show ¬ ((attempt_airtime monnifyCall peyflexCall).success = false) by
      simp [hsucc])]
    unfold txnById
    rcases Classical.em ((0 : Int) < pricing.margin) with hm | hm <;>
      rcases Classical.em (1584 * amount ≤ 1000 * pricing.cost_price) with hem | hem
    · simp only [if_pos hm, if_pos hem, tag_emergency_transaction]
      apply find?_id_update_fresh hfresh <;> rfl
    · simp only [if_pos hm, if_neg hem]
      apply find?_id_update_fresh hfresh <;> rfl
    · simp only [if_neg hm, if_pos hem, tag_emergency_transaction]
      apply find?_id_update_fresh hfresh <;> rfl
    · simp only [if_neg hm, if_neg hem]
      apply find?_id_update_fresh hfresh <;> rfl
  · intro hfail
    unfold buy_airtime
    rw [if_neg (by push_neg; exact ⟨hph, hnw, lt_of_not_ge ha0⟩)]
    rw [if_neg (by push_neg; exact ⟨le_of_not_gt ha1, le_of_not_gt ha2⟩)]
    simp only [hdup, hw]
    rw [if_neg hbal]
    rw [if_pos hfail]
    unfold txnById
    apply find?_id_update_fresh hfresh <;> rfl

theorem C4_row_lifecycle_witness :
    firstInsertedTxn (buy_airtime "USERA" "08012345678" "MTN" 500 pricingFix 2 "REQ1"
      1000 (Except.error "m down") (Except.ok apiOkResp) dbA).2.2 =
      some (airtimeTxnRow "USERA" "08012345678" "MTN" 500 pricingFix.selling_price
        2 "REQ1" 1000) :=
  (C4_row_lifecycle "USERA" "08012345678" "MTN" 500 pricingFix 2 "REQ1" 1000
    (Except.error "m down") (Except.ok apiOkResp) dbA walletA
    (attempt_airtime (Except.error "m down") (Except.ok apiOkResp))
    (airtimeTxnRow "USERA" "08012345678" "MTN" 500 pricingFix.selling_price 2 "REQ1" 1000)
    (legacyAirtimeTxnRow "USERA" "08012345678" "MTN" 500 pricingFix.selling_price 2 "REQ1" 1000)
    (buy_airtime "USERA" "08012345678" "MTN" 500 pricingFix 2 "REQ1" 1000
      (Except.error "m down") (Except.ok apiOkResp) dbA)
    rfl rfl rfl rfl
    (by decide) (by decide) (by decide) (by decide) (by decide)
    (by decide) (by decide) (by decide)
    (by intro t ht; simp [dbA] at ht)).1

/-- C4 (counterexample): the legacy vas.py `buy_airtime` creates its
Transaction row with status PENDING — not FAILED with reason "in
progress" — refuting "every purchase ... never in a PENDING state". -/
theorem C4_pending_creation_counterexample :
    (firstInsertedTxn (legacy_buy_airtime "USERA" "08012345678" "MTN" 500 pricingFix 2
      "REQ1" 1000 (Except.ok apiOkResp) (Except.error "down") dbA).2.2).map Txn.status =
      some TxnStatus.PENDING := by decide

/-! Claim C3: primary/fallback failover. -/

/-- C3: Monnify is always attempted first and Peyflex is called exactly
when the Monnify attempt raises — never after Monnify succeeds, and no
provider is ever attempted twice; the committed transaction records the
provider that fulfilled it; if both providers raise, the attempt fails
with the concatenation of both error messages, which becomes the FAILED
row's reason.  For data purchases the same orchestration applies, where a
raise includes the plan-mismatch raise after a provider-reported success. -/
theorem C3_provider_failover (uid phone_number network : String) (amount : Int)
    (pricing : Pricing) (newId : Nat) (request_id : String) (now : Nat)
    (monnifyCall peyflexCall : Except String ApiResp) (db : DB) (w : Wallet)
    (data_uid data_plan_id data_plan_name : String) (damount : Int) (ddb : DB)
    (hph : ¬ phone_number = "") (hnw : ¬ network = "")
    (ha0 : ¬ amount ≤ 0) (ha1 : ¬ amount < 100) (ha2 : ¬ 5000 < amount)
    (hdup : check_pending_transaction db uid TxnType.AIRTIME pricing.selling_price
      phone_number now = none)
    (hw : findWallet db uid = some w)
    (hbal : ¬ w.balance < pricing.selling_price)
    (hfresh : ∀ t ∈ db.txns, t.id ≠ newId) :
    callsOf (attempt_airtime monnifyCall peyflexCall).events =
      (if exOk monnifyCall then [ProviderName.monnify]
       else [ProviderName.monnify, ProviderName.peyflex]) ∧
    callCount ProviderName.monnify (attempt_airtime monnifyCall peyflexCall).events ≤ 1 ∧
    callCount ProviderName.peyflex (attempt_airtime monnifyCall peyflexCall).events ≤ 1 ∧
    ((attempt_airtime monnifyCall peyflexCall).success = true →
      (attempt_airtime monnifyCall peyflexCall).provider =
        (if exOk monnifyCall then ProviderName.monnify else ProviderName.peyflex)) ∧
    ((attempt_airtime monnifyCall peyflexCall).success = true →
      txnById (buy_airtime uid phone_number network amount pricing newId request_id now
          monnifyCall peyflexCall db).2.1 newId =
        some (setSuccessUpdate (attempt_airtime monnifyCall peyflexCall).provider
          (airtimeTxnRow uid phone_number network amount pricing.selling_price
            newId request_id now))) ∧
    (∀ me pe, monnifyCall = Except.error me → peyflexCall = Except.error pe →
      (attempt_airtime monnifyCall peyflexCall).success = false ∧
      (attempt_airtime monnifyCall peyflexCall).error_message =
        "Both providers failed. Monnify: " ++ me ++ ", Peyflex: " ++ pe) ∧
    callsOf (attempt_data data_uid data_plan_id data_plan_name damount
        monnifyCall peyflexCall ddb).1.events =
      (match monnifyCall with
       | Except.ok r =>
           if (validate_delivered_plan (some r) data_plan_name damount).is_match then
             [ProviderName.monnify]
           else [ProviderName.monnify, ProviderName.peyflex]
       | Except.error _ => [ProviderName.monnify, ProviderName.peyflex]) := by
  refine ⟨?_, ?_, ?_, ?_, ?_, ?_, ?_⟩
  · cases monnifyCall with
    | ok r => simp [attempt_airtime, callsOf, exOk]
    | error me =>
        cases peyflexCall with
        | ok r => simp [attempt_airtime, callsOf, exOk]
        | error pe => simp [attempt_airtime, callsOf, exOk]
  · cases monnifyCall with
    | ok r => simp [attempt_airtime, callCount]
    | error me =>
        cases peyflexCall with
        | ok r => simp [attempt_airtime, callCount, List.countP_cons]
        | error pe => simp [attempt_airtime, callCount, List.countP_cons]
  · cases monnifyCall with
    | ok r => simp [attempt_airtime, callCount]
    | error me =>
        cases peyflexCall with
        | ok r => simp [attempt_airtime, callCount, List.countP_cons]
        | error pe => simp [attempt_airtime, callCount, List.countP_cons]
  · intro hs
    cases monnifyCall with
    | ok r => simp [attempt_airtime, exOk]
    | error me =>
        cases peyflexCall with
        | ok r => simp [attempt_airtime, exOk]
        | error pe => simp [attempt_airtime] at hs
  · intro hsucc
    unfold buy_airtime
    rw [if_neg (by push_neg; exact ⟨hph, hnw, lt_of_not_ge ha0⟩)]
    rw [if_neg (by push_neg; exact ⟨le_of_not_gt ha1, le_of_not_gt ha2⟩)]
    simp only [hdup, hw]
    rw [if_neg hbal]
    rw [if_neg (show ¬ ((attempt_airtime monnifyCall peyflexCall).success = false) by
      simp [hsucc])]
    unfold txnById
    rcases Classical.em ((0 : Int) < pricing.margin) with hm | hm <;>
      rcases Classical.em (1584 * amount ≤ 1000 * pricing.cost_price) with hem | hem
    · simp only [if_pos hm, if_pos hem, tag_emergency_transaction]
      apply find?_id_update_fresh hfresh <;> rfl
    · simp only [if_pos hm, if_neg hem]
      apply find?_id_update_fresh hfresh <;> rfl
    · simp only [if_neg hm, if_pos hem, tag_emergency_transaction]
      apply find?_id_update_fresh hfresh <;> rfl
    · simp only [if_neg hm, if_neg hem]
      apply find?_id_update_fresh hfresh <;> rfl
  · intro me pe hme hpe
    subst hme hpe
    exact ⟨rfl, rfl⟩
  · cases monnifyCall with
    | ok r =>
        by_cases hv : (validate_delivered_plan (some r) data_plan_name damount).is_match
        · simp [attempt_data, hv, callsOf]
        · cases peyflexCall with
          | ok r2 =>
              by_cases hv2 : (validate_delivered_plan (some r2) data_plan_name damount).is_match
              · simp [attempt_data, attempt_data_fallback, hv, hv2, callsOf]
              · simp [attempt_data, attempt_data_fallback, hv, hv2, callsOf]
          | error pe => simp [attempt_data, attempt_data_fallback, hv, callsOf]
    | error me =>
        cases peyflexCall with
        | ok r2 =>
            by_cases hv2 : (validate_delivered_plan (some r2) data_plan_name damount).is_match
            · simp [attempt_data, attempt_data_fallback, hv2, callsOf]
            · simp [attempt_data, attempt_data_fallback, hv2, callsOf]
        | error pe => simp [attempt_data, attempt_data_fallback, callsOf]

theorem C3_provider_failover_witness :
    callsOf (attempt_airtime (Except.error "m down") (Except.ok apiOkResp)).events =
      (if exOk (Except.error "m down" : Except String ApiResp) then [ProviderName.monnify]
       else [ProviderName.monnify, ProviderName.peyflex]) :=
  (C3_provider_failover "USERA" "08012345678" "MTN" 500 pricingFix 2 "REQ1" 1000
    (Except.error "m down") (Except.ok apiOkResp) dbA walletA
    "USERA" "mtn_1gb_30days" "MTN 1GB 30 Days" 500 dbA
    (by decide) (by decide) (by decide) (by decide) (by decide)
    (by decide) (by decide) (by decide)
    (by intro t ht; simp [dbA] at ht)).1

theorem attempt_data_txns (uid pid pname : String) (amt : Int)
    (m p : Except String ApiResp) (db : DB) :
    ((attempt_data uid pid pname amt m p db).2).txns = db.txns := by
  cases m with
  | ok r =>
      by_cases hv : (validate_delivered_plan (some r) pname amt).is_match
      · simp [attempt_data, hv]
      · cases p with
        | ok r2 =>
            by_cases hv2 : (validate_delivered_plan (some r2) pname amt).is_match
            · simp [attempt_data, attempt_data_fallback, log_plan_mismatch, hv, hv2]
            · simp [attempt_data, attempt_data_fallback, log_plan_mismatch, hv, hv2]
        | error pe => simp [attempt_data, attempt_data_fallback, log_plan_mismatch, hv]
  | error me =>
      cases p with
      | ok r2 =>
          by_cases hv2 : (validate_delivered_plan (some r2) pname amt).is_match
          · simp [attempt_data, attempt_data_fallback, log_plan_mismatch, hv2]
          · simp [attempt_data, attempt_data_fallback, log_plan_mismatch, hv2]
      | error pe => simp [attempt_data, attempt_data_fallback]

theorem attempt_data_wallets (uid pid pname : String) (amt : Int)
    (m p : Except String ApiResp) (db : DB) :
    ((attempt_data uid pid pname amt m p db).2).wallets = db.wallets := by
  cases m with
  | ok r =>
      by_cases hv : (validate_delivered_plan (some r) pname amt).is_match
      · simp [attempt_data, hv]
      · cases p with
        | ok r2 =>
            by_cases hv2 : (validate_delivered_plan (some r2) pname amt).is_match
            · simp [attempt_data, attempt_data_fallback, log_plan_mismatch, hv, hv2]
            · simp [attempt_data, attempt_data_fallback, log_plan_mismatch, hv, hv2]
        | error pe => simp [attempt_data, attempt_data_fallback, log_plan_mismatch, hv]
  | error me =>
      cases p with
      | ok r2 =>
          by_cases hv2 : (validate_delivered_plan (some r2) pname amt).is_match
          · simp [attempt_data, attempt_data_fallback, log_plan_mismatch, hv2]
          · simp [attempt_data, attempt_data_fallback, log_plan_mismatch, hv2]
      | error pe => simp [attempt_data, attempt_data_fallback]

/-- Reduction of `buy_airtime` past its guards: the flow inserts the
FAILED-in-progress row and either records the failure or commits. -/
theorem buy_airtime_reduce (uid phone_number network : String) (amount : Int)
    (pricing : Pricing) (newId : Nat) (request_id : String) (now : Nat)
    (monnifyCall peyflexCall : Except String ApiResp) (db : DB) (w : Wallet)
    (hph : ¬ phone_number = "") (hnw : ¬ network = "")
    (ha0 : ¬ amount ≤ 0) (ha1 : ¬ amount < 100) (ha2 : ¬ 5000 < amount)
    (hdup : check_pending_transaction db uid TxnType.AIRTIME pricing.selling_price
      phone_number now = none)
    (hw : findWallet db uid = some w)
    (hbal : ¬ w.balance < pricing.selling_price)
    (hfresh : ∀ t ∈ db.txns, t.id ≠ newId) :
    buy_airtime uid phone_number network amount pricing newId request_id now
      monnifyCall peyflexCall db =
    (let att := attempt_airtime monnifyCall peyflexCall
     let row := airtimeTxnRow uid phone_number network amount pricing.selling_price
       newId request_id now
     if att.success = false then
       ({ code := 500, ok := false, message := "Purchase failed" },
        { db with txns := db.txns ++ [setFailedUpdate att.error_message row] },
        Ev.insertTxn row :: att.events ++ [Ev.setTxnFailed att.error_message])
     else
       ({ code := 200, ok := true, message := "Airtime purchase successful" },
        { db with
          txns := db.txns ++ [setSuccessUpdate att.provider row],
          wallets := db.wallets.map (fun wl =>
            if wl.userId = uid then
              { wl with balance := applyWalletWrite wl.balance (debitWalletWrite w.balance pricing.selling_price) }
            else wl),
          revenue :=
            if 0 < pricing.margin then
              db.revenue ++
                [{ rtype := "VAS_MARGIN", category := "AIRTIME_MARGIN",
                   amount := pricing.margin, userId := uid,
                   relatedTransaction := toString newId }]
            else db.revenue,
          emergencyTags :=
            if 1584 * amount ≤ 1000 * pricing.cost_price then
              db.emergencyTags ++
                [{ transactionId := newId, costPrice := pricing.cost_price,
                   serviceKind := "airtime", network := network,
                   status := "PENDING_RECOVERY", recoveryDeadline := now + 24 * 3600 }]
            else db.emergencyTags,
          notifications :=
            if 1584 * amount ≤ 1000 * pricing.cost_price then db.notifications + 1
            else db.notifications,
          expenses := db.expenses + 1,
          balancePushes := db.balancePushes + 1 },
        Ev.insertTxn row :: att.events ++
          [Ev.debitWallet pricing.selling_price, Ev.setTxnSuccess att.provider])) := by
  unfold buy_airtime
  rw [if_neg (by push_neg; exact ⟨hph, hnw, lt_of_not_ge ha0⟩)]
  rw [if_neg (by push_neg; exact ⟨le_of_not_gt ha1, le_of_not_gt ha2⟩)]
  simp only [hdup, hw]
  rw [if_neg hbal]
  by_cases hs : (attempt_airtime monnifyCall peyflexCall).success = false
  · rw [if_pos hs, if_pos hs]
    rw [updateFirst_fresh_append hfresh _ rfl]
  · rw [if_neg hs, if_neg hs]
    simp only [updateWalletBalance]
    rw [updateFirst_fresh_append hfresh _ rfl]
    rcases Classical.em ((0 : Int) < pricing.margin) with hm | hm <;>
      rcases Classical.em (1584 * amount ≤ 1000 * pricing.cost_price) with hem | hem
    · simp only [if_pos hm, if_pos hem, tag_emergency_transaction]
    · simp only [if_pos hm, if_neg hem]
    · simp only [if_neg hm, if_pos hem, tag_emergency_transaction]
    · simp only [if_neg hm, if_neg hem]

/-! Claim C2: debit if and only if provider success. -/

/-- C2 (amended): in `buy_airtime` the wallet is debited (by the selling
price, exactly one debit event) iff the provider ladder succeeded — i.e.
iff some provider call returned success — the debit occurring strictly
after a provider success event; when all providers fail the balance is
unchanged and the transaction is FAILED.  For data purchases a provider
call returning success is not sufficient: the attempt succeeds (and the
wallet is debited) exactly when some provider call returned success and
its delivered plan passed validation. -/
theorem C2_debit_iff_provider_success (uid phone_number network : String) (amount : Int)
    (pricing : Pricing) (newId : Nat) (request_id : String) (now : Nat)
    (monnifyCall peyflexCall : Except String ApiResp) (db : DB) (w : Wallet)
    (data_uid data_plan_id data_plan_name : String) (damount : Int) (ddb : DB)
    (hph : ¬ phone_number = "") (hnw : ¬ network = "")
    (ha0 : ¬ amount ≤ 0) (ha1 : ¬ amount < 100) (ha2 : ¬ 5000 < amount)
    (hdup : check_pending_transaction db uid TxnType.AIRTIME pricing.selling_price
      phone_number now = none)
    (hw : findWallet db uid = some w)
    (hbal : ¬ w.balance < pricing.selling_price)
    (hfresh : ∀ t ∈ db.txns, t.id ≠ newId) :
    (attempt_airtime monnifyCall peyflexCall).success = (exOk monnifyCall || exOk peyflexCall) ∧
    debitsPrecededBySuccess (buy_airtime uid phone_number network amount pricing newId
      request_id now monnifyCall peyflexCall db).2.2 false = true ∧
    ((attempt_airtime monnifyCall peyflexCall).success = true →
      walletBalance (buy_airtime uid phone_number network amount pricing newId request_id
        now monnifyCall peyflexCall db).2.1 uid = walletBalance db uid - pricing.selling_price ∧
      debitCount (buy_airtime uid phone_number network amount pricing newId request_id
        now monnifyCall peyflexCall db).2.2 = 1) ∧
    ((attempt_airtime monnifyCall peyflexCall).success = false →
      walletBalance (buy_airtime uid phone_number network amount pricing newId request_id
        now monnifyCall peyflexCall db).2.1 uid = walletBalance db uid ∧
      debitCount (buy_airtime uid phone_number network amount pricing newId request_id
        now monnifyCall peyflexCall db).2.2 = 0 ∧
      statusOf (buy_airtime uid phone_number network amount pricing newId request_id
        now monnifyCall peyflexCall db).2.1 newId = some TxnStatus.FAILED) ∧
    ((attempt_data data_uid data_plan_id data_plan_name damount monnifyCall peyflexCall
        ddb).1.success = true ↔
      ((∃ r, monnifyCall = Except.ok r ∧
          (validate_delivered_plan (some r) data_plan_name damount).is_match = true) ∨
       (∃ r, peyflexCall = Except.ok r ∧
          (validate_delivered_plan (some r) data_plan_name damount).is_match = true))) := by
  have hred := buy_airtime_reduce uid phone_number network amount pricing newId request_id
    now monnifyCall peyflexCall db w hph hnw ha0 ha1 ha2 hdup hw hbal hfresh
  have hwb : walletBalance db uid = w.balance := by
    unfold walletBalance
    rw [hw]
  refine ⟨?_, ?_, ?_, ?_, ?_⟩
  · cases monnifyCall with
    | ok r => rfl
    | error me => cases peyflexCall with
      | ok r => rfl
      | error pe => rfl
  · rw [hred]
    cases monnifyCall with
    | ok r => simp [attempt_airtime, debitsPrecededBySuccess]
    | error me => cases peyflexCall with
      | ok r => simp [attempt_airtime, debitsPrecededBySuccess]
      | error pe => simp [attempt_airtime, debitsPrecededBySuccess]
  · intro hsucc
    rw [hred]
    simp only [if_neg (show ¬ ((attempt_airtime monnifyCall peyflexCall).success = false) by
      simp [hsucc])]
    constructor
    · unfold walletBalance findWallet
      simp only [find?_wallets_map]
      have hw' : List.find? (fun wl => wl.userId = uid) db.wallets = some w := hw
      rw [hw']
      simp [applyWalletWrite, debitWalletWrite]
    · cases monnifyCall with
      | ok r => simp [attempt_airtime, debitCount]
      | error me => cases peyflexCall with
        | ok r => simp [attempt_airtime, debitCount]
        | error pe => simp [attempt_airtime] at hsucc
  · intro hfail
    rw [hred]
    simp only [if_pos hfail]
    refine ⟨rfl, ?_, ?_⟩
    · cases monnifyCall with
      | ok r => simp [attempt_airtime] at hfail
      | error me => cases peyflexCall with
        | ok r => simp [attempt_airtime] at hfail
        | error pe => simp [attempt_airtime, debitCount]
    · unfold statusOf statusOfL
      rw [find?_id_append_fresh hfresh,
        List.find?_cons_of_pos _ (by simp [setFailedUpdate, airtimeTxnRow])]
      rfl
  · cases monnifyCall with
    | ok r =>
        by_cases hv : (validate_delivered_plan (some r) data_plan_name damount).is_match
        · simp [attempt_data, hv]
        · cases peyflexCall with
          | ok r2 =>
              by_cases hv2 : (validate_delivered_plan (some r2) data_plan_name damount).is_match
              · simp [attempt_data, attempt_data_fallback, hv, hv2]
              · simp [attempt_data, attempt_data_fallback, hv, hv2]
          | error pe => simp [attempt_data, attempt_data_fallback, hv]
    | error me =>
        cases peyflexCall with
        | ok r2 =>
            by_cases hv2 : (validate_delivered_plan (some r2) data_plan_name damount).is_match
            · simp [attempt_data, attempt_data_fallback, hv2]
            · simp [attempt_data, attempt_data_fallback, hv2]
        | error pe => simp [attempt_data, attempt_data_fallback]

theorem C2_debit_iff_provider_success_witness :
    walletBalance (buy_airtime "USERA" "08012345678" "MTN" 500 pricingFix 2 "REQ1" 1000
      (Except.ok apiOkResp) (Except.error "down") dbA).2.1 "USERA" =
      walletBalance dbA "USERA" - pricingFix.selling_price ∧
    debitCount (buy_airtime "USERA" "08012345678" "MTN" 500 pricingFix 2 "REQ1" 1000
      (Except.ok apiOkResp) (Except.error "down") dbA).2.2 = 1 :=
  (C2_debit_iff_provider_success "USERA" "08012345678" "MTN" 500 pricingFix 2 "REQ1" 1000
    (Except.ok apiOkResp) (Except.error "down") dbA walletA
    "USERA" "mtn_1gb_30days" "MTN 1GB 30 Days" 500 dbA
    (by decide) (by decide) (by decide) (by decide) (by decide)
    (by decide) (by decide) (by decide)
    (by intro t ht; simp [dbA] at ht)).2.2.1 (by decide)

/-- C2 (counterexample): a data purchase where Monnify's call returned
success but delivered a mismatched plan, and Peyflex failed: a provider
call returned success, yet the wallet balance is unchanged and the
purchase fails — refuting "decremented if and only if some provider call
returned success" as stated over airtime-or-data purchases. -/
theorem C2_provider_success_no_debit_counterexample :
    exOk (Except.ok apiMismatchResp : Except String ApiResp) = true ∧
    (buy_data "USERA" "08012345678" "MTN" "mtn_2gb_30days" "MTN 2GB 30 Days" 1000 true 2
      "REQ2" 1000 (Except.ok apiMismatchResp) (Except.error "down") dbA).1.code = 500 ∧
    walletBalance (buy_data "USERA" "08012345678" "MTN" "mtn_2gb_30days" "MTN 2GB 30 Days"
      1000 true 2 "REQ2" 1000 (Except.ok apiMismatchResp) (Except.error "down")
      dbA).2.1 "USERA" = walletBalance dbA "USERA" :=
  ⟨rfl, by decide, by decide⟩

theorem statusOfL_update_fresh {l : List Txn} {nid : Nat} {t₀ : Txn} {f : Txn → Txn}
    (h : ∀ u ∈ l, u.id ≠ nid) (h0 : t₀.id = nid) (hf : (f t₀).id = nid) :
    statusOfL (updateFirst (fun t => t.id = nid) f (l ++ [t₀])) nid =
      some (f t₀).status := by
  unfold statusOfL
  rw [find?_id_update_fresh h h0 hf]
  rfl

/-! Claim C9: delivered-plan validation and mismatch handling. -/

/-- C9: a delivered plan matches the request exactly when its amount is
within an absolute 50-naira tolerance of the requested amount and the two
plan names share a key data-volume/validity term; in `buy_data`, when
Monnify reports success but validation fails, a Plan Mismatch Log with
`requires_investigation` and `requires_refund` set is persisted and the
user is notified, Monnify's result is not committed (a successful commit
can only come from Peyflex), and if the fallback also fails the
transaction stays FAILED and the wallet balance is unchanged. -/
theorem C9_plan_mismatch_handling (uid phone_number network data_plan_id
      data_plan_name : String) (amount : Int) (newId : Nat) (request_id : String)
    (now : Nat) (r : ApiResp) (monnifyCall peyflexCall : Except String ApiResp)
    (db : DB) (w : Wallet)
    (hph : ¬ phone_number = "") (hnw : ¬ network = "") (hpid : ¬ data_plan_id = "")
    (ha0 : ¬ amount ≤ 0)
    (hdup : check_pending_transaction db uid TxnType.DATA amount phone_number now = none)
    (hw : findWallet db uid = some w)
    (hbal : ¬ w.balance < amount)
    (hfresh : ∀ t ∈ db.txns, t.id ≠ newId)
    (hm : monnifyCall = Except.ok r)
    (hmm : (validate_delivered_plan (some r) data_plan_name amount).is_match = false) :
    (∀ (r' : ApiResp) (pname' : String) (amt' : Int),
      (validate_delivered_plan (some r') pname' amt').is_match = true ↔
        ((delivered_amount_of r' - amt').natAbs ≤ 50 ∧
         check_plan_name_similarity pname' (delivered_name_of r') = true)) ∧
    ({ userId := uid, provider := ProviderName.monnify,
       incident_type := "PLAN_MISMATCH", severity := "HIGH",
       requested_plan_id := data_plan_id, requested_plan_name := data_plan_name,
       requested_amount := amount,
       delivered_plan := (validate_delivered_plan (some r) data_plan_name amount).delivered_plan,
       status := "LOGGED", requires_investigation := true,
       requires_refund := true } : MismatchLog) ∈
      (buy_data uid phone_number network data_plan_id data_plan_name amount true newId
        request_id now monnifyCall peyflexCall db).2.1.mismatchLogs ∧
    db.notifications + 1 ≤
      (buy_data uid phone_number network data_plan_id data_plan_name amount true newId
        request_id now monnifyCall peyflexCall db).2.1.notifications ∧
    (∀ (db' : DB),
      (attempt_data uid data_plan_id data_plan_name amount monnifyCall peyflexCall
        db').1.success = true →
      (attempt_data uid data_plan_id data_plan_name amount monnifyCall peyflexCall
        db').1.provider = ProviderName.peyflex) ∧
    ((∀ (db' : DB), (attempt_data uid data_plan_id data_plan_name amount monnifyCall
        peyflexCall db').1.success = false) →
      statusOf (buy_data uid phone_number network data_plan_id data_plan_name amount true
        newId request_id now monnifyCall peyflexCall db).2.1 newId =
        some TxnStatus.FAILED ∧
      walletBalance (buy_data uid phone_number network data_plan_id data_plan_name amount
        true newId request_id now monnifyCall peyflexCall db).2.1 uid =
        walletBalance db uid) := by
  have hem : ¬ (16 * amount ≤ 10 * amount) := by
    have := lt_of_not_ge ha0
    omega
  have htol : ∀ (r' : ApiResp) (pname' : String) (amt' : Int),
      (validate_delivered_plan (some r') pname' amt').is_match = true ↔
        ((delivered_amount_of r' - amt').natAbs ≤ 50 ∧
         check_plan_name_similarity pname' (delivered_name_of r') = true) := by
    intro r' pname' amt'
    unfold validate_delivered_plan delivered_amount_of delivered_name_of
    simp only [Bool.and_eq_true, decide_eq_true_iff]
  subst hm
  unfold buy_data
  rw [if_neg (by push_neg; exact ⟨hph, hnw, hpid, lt_of_not_ge ha0⟩)]
  rw [if_neg (by simp)]
  simp only [hdup, hw]
  rw [if_neg hbal]
  simp only [attempt_data, hmm, Bool.false_eq_true, if_false]
  cases peyflexCall with
  | error pe =>
      simp only [attempt_data_fallback, log_plan_mismatch]
      refine ⟨htol, ?_, ?_, ?_, ?_⟩
      · simp
      · simp
      · intro db' hs
        simp [attempt_data, attempt_data_fallback, log_plan_mismatch, hmm] at hs
      · intro _
        constructor
        · unfold statusOf
          exact statusOfL_update_fresh hfresh rfl rfl
        · rfl
  | ok r2 =>
      by_cases hv2 : (validate_delivered_plan (some r2) data_plan_name amount).is_match
      · simp only [attempt_data_fallback, log_plan_mismatch, hv2, if_pos, if_true]
        rw [if_neg (by simp)]
        simp only [if_neg hem, updateWalletBalance]
        refine ⟨htol, ?_, ?_, ?_, ?_⟩
        · simp
        · simp
        · intro db' _
          simp [attempt_data, attempt_data_fallback, hmm, hv2]
        · intro hall
          have := hall db
          simp [attempt_data, attempt_data_fallback, hmm, hv2] at this
      · simp only [attempt_data_fallback, log_plan_mismatch, hv2, Bool.false_eq_true,
          if_false]
        refine ⟨htol, ?_, ?_, ?_, ?_⟩
        · simp
        · simp
        · intro db' hs
          simp [attempt_data, attempt_data_fallback, log_plan_mismatch, hmm, hv2] at hs
        · intro _
          constructor
          · unfold statusOf
            exact statusOfL_update_fresh hfresh rfl rfl
          · rfl

theorem C9_plan_mismatch_handling_witness :
    ({ userId := "USERA", provider := ProviderName.monnify,
       incident_type := "PLAN_MISMATCH", severity := "HIGH",
       requested_plan_id := "mtn_2gb_30days", requested_plan_name := "MTN 2GB 30 Days",
       requested_amount := 1000,
       delivered_plan :=
         (validate_delivered_plan (some apiMismatchResp) "MTN 2GB 30 Days" 1000).delivered_plan,
       status := "LOGGED", requires_investigation := true,
       requires_refund := true } : MismatchLog) ∈
      (buy_data "USERA" "08012345678" "MTN" "mtn_2gb_30days" "MTN 2GB 30 Days" 1000 true
        2 "REQ2" 1000 (Except.ok apiMismatchResp) (Except.error "down")
        dbA).2.1.mismatchLogs :=
  (C9_plan_mismatch_handling "USERA" "08012345678" "MTN" "mtn_2gb_30days"
    "MTN 2GB 30 Days" 1000 2 "REQ2" 1000 apiMismatchResp
    (Except.ok apiMismatchResp) (Except.error "down") dbA walletA
    (by decide) (by decide) (by decide) (by decide)
    (by decide) (by decide) (by decide)
    (by intro t ht; simp [dbA] at ht)
    rfl (by decide)).2.1

/-! Claim C6: webhook confirmation of existing purchases. -/

/-- C6 (amended): when a correctly signed, successful webhook's reference
matches an existing AIRTIME or DATA Transaction (on requestId or
transactionReference), the handler — before any funding-credit logic —
only updates that transaction: the confirmation flag is set, and the
status is promoted to SUCCESS exactly when it was PENDING (a
FAILED-"Transaction in progress" transaction is left FAILED); no new
Transaction is created and the wallet balance is untouched. -/
theorem C6_vas_confirmation (hmacSha512 : String → String → String) (secret : String)
    (req : WebhookReq) (now newId : Nat) (db : DB) (t : Txn)
    (h_sig : req.signatureHeader = hmacSha512 secret req.rawBody)
    (h_sp : req.event.eventType = some "SUCCESSFUL_TRANSACTION" ∨
      (pyUpper req.event.paymentStatus = "PAID" ∧ req.event.completed))
    (h_found : find_existing_vas_txn db (vas_detect_ref req.event) = some t) :
    monnify_webhook hmacSha512 secret req now newId db =
      ({ code := 200, ok := true, message := "VAS confirmation processed" },
       { db with
         txns := updateFirst (fun x => x.id = t.id)
           (vasConfirmUpdate (decide (t.status = TxnStatus.PENDING))) db.txns }) ∧
    (updateFirst (fun x => x.id = t.id)
      (vasConfirmUpdate (decide (t.status = TxnStatus.PENDING))) db.txns).length =
      db.txns.length ∧
    (∀ u : Txn,
      (vasConfirmUpdate (decide (t.status = TxnStatus.PENDING)) u).providerConfirmed = true) ∧
    (t.status = TxnStatus.PENDING →
      (vasConfirmUpdate (decide (t.status = TxnStatus.PENDING)) t).status =
        TxnStatus.SUCCESS) ∧
    (¬ t.status = TxnStatus.PENDING →
      (vasConfirmUpdate (decide (t.status = TxnStatus.PENDING)) t).status = t.status) := by
  refine ⟨?_, updateFirst_length _ _ _, ?_, ?_, ?_⟩
  · unfold monnify_webhook
    rw [if_neg (fun hn => hn h_sig)]
    rw [if_pos h_sp]
    simp only [h_found]
  · intro u
    unfold vasConfirmUpdate
    by_cases hp : t.status = TxnStatus.PENDING
    · simp [hp]
    · simp [hp]
  · intro hp
    unfold vasConfirmUpdate
    simp [hp]
  · intro hp
    unfold vasConfirmUpdate
    simp [hp]

theorem C6_vas_confirmation_witness :
    monnify_webhook hmFix "sec" confirmReq 1000 7 db_pending =
      ({ code := 200, ok := true, message := "VAS confirmation processed" },
       { db_pending with
         txns := updateFirst (fun x => x.id = pendingTxn.id)
           (vasConfirmUpdate (decide (pendingTxn.status = TxnStatus.PENDING)))
           db_pending.txns }) :=
  (C6_vas_confirmation hmFix "sec" confirmReq 1000 7 db_pending pendingTxn
    rfl (Or.inl rfl) (by decide)).1

/-- C6 (counterexample): the webhook confirmation of an AIRTIME
transaction that is still unresolved in the spec's sense (status FAILED,
reason "Transaction in progress") sets the confirmation flag but does not
promote it to SUCCESS — only a PENDING transaction is promoted. -/
theorem C6_unresolved_not_promoted_counterexample :
    (txnById db_inflight 1).map Txn.status = some TxnStatus.FAILED ∧
    (txnById db_inflight 1).bind Txn.failureReason = some "Transaction in progress" ∧
    (monnify_webhook hmFix "sec" confirmReq 1000 7 db_inflight).1.code = 200 ∧
    (txnById (monnify_webhook hmFix "sec" confirmReq 1000 7 db_inflight).2 1).map
      Txn.status = some TxnStatus.FAILED ∧
    (txnById (monnify_webhook hmFix "sec" confirmReq 1000 7 db_inflight).2 1).map
      Txn.providerConfirmed = some true := by
  refine ⟨by decide, by decide, by decide, by decide, by decide⟩

/-! Claim C1: idempotent webhook funding credit. -/

/-- C1: a correctly signed, successful funding webhook that resolves to a
user with a wallet credits `amountPaid - fee` exactly once, where the fee
is 30 naira for non-premium users and 0 for premium; the single inserted
WALLET_FUNDING row is keyed by the provider transaction reference, and
every later delivery of the identical payload (any number of times,
sequentially) is acknowledged with success "Already processed" and leaves
the database — wallet balance and ledger — unchanged. -/
theorem C1_webhook_funding_idempotent (hmacSha512 : String → String → String)
    (secret : String) (req : WebhookReq) (now newId : Nat) (db : DB)
    (uid : String) (w : Wallet) (f : FundingInfo) (dbAfter : DB)
    (h_f : extract_funding req.event = f)
    (h_sig : req.signatureHeader = hmacSha512 secret req.rawBody)
    (h_sp : req.event.eventType = some "SUCCESSFUL_TRANSACTION" ∨
      (pyUpper req.event.paymentStatus = "PAID" ∧ req.event.completed))
    (h_novas : find_existing_vas_txn db (vas_detect_ref req.event) = none)
    (h_amt : 0 < f.amount_paid)
    (h_uid : resolve_user_id f db = uid) (h_uid_ne : ¬ uid = "")
    (h_noref : db.txns.find? (fun t => t.reference = some f.transaction_reference) = none)
    (h_nokey : db.txns.any
      (fun t => t.transactionReference = some f.transaction_reference) = false)
    (h_wallet : findWallet db uid = some w)
    (h_credit : ¬ f.amount_paid - deposit_fee_for db uid now ≤ 0)
    (h_after : dbAfter =
      { db with
        txns := db.txns ++
          [fundingTxnRow uid (f.amount_paid - deposit_fee_for db uid now) f.amount_paid
            (deposit_fee_for db uid now) f.transaction_reference newId now],
        wallets := db.wallets.map (fun wl =>
          if wl.userId = uid then
            { wl with balance := applyWalletWrite wl.balance (creditWalletWrite w.balance (f.amount_paid - deposit_fee_for db uid now)) }
          else wl),
        revenue :=
          if 0 < deposit_fee_for db uid now then
            db.revenue ++
              [{ rtype := "SERVICE_FEE", category := "DEPOSIT_FEE",
                 amount := deposit_fee_for db uid now, userId := uid,
                 relatedTransaction := f.transaction_reference }]
          else db.revenue,
        notifications := db.notifications + 1 }) :
    monnify_webhook hmacSha512 secret req now newId db =
      ({ code := 200, ok := true, message := "Wallet funded successfully" }, dbAfter) ∧
    deposit_fee_for db uid now =
      (if is_premium_user db uid now then 0 else VAS_TRANSACTION_FEE) ∧
    fundingTxnCount dbAfter f.transaction_reference = 1 ∧
    walletBalance dbAfter uid =
      walletBalance db uid + (f.amount_paid - deposit_fee_for db uid now) ∧
    (∀ id2, monnify_webhook hmacSha512 secret req now id2 dbAfter =
      ({ code := 200, ok := true, message := "Already processed" }, dbAfter)) ∧
    (∀ ids, deliverTimes hmacSha512 secret req now ids dbAfter = dbAfter) := by
  subst h_f
  subst h_after
  have hw' : List.find? (fun wl => wl.userId = uid) db.wallets = some w := h_wallet
  have hfirst : monnify_webhook hmacSha512 secret req now newId db =
      ({ code := 200, ok := true, message := "Wallet funded successfully" },
       { db with
         txns := db.txns ++
           [fundingTxnRow uid
             ((extract_funding req.event).amount_paid - deposit_fee_for db uid now)
             (extract_funding req.event).amount_paid (deposit_fee_for db uid now)
             (extract_funding req.event).transaction_reference newId now],
         wallets := db.wallets.map (fun wl =>
           if wl.userId = uid then
             { wl with balance := applyWalletWrite wl.balance (creditWalletWrite w.balance ((extract_funding req.event).amount_paid - deposit_fee_for db uid now)) }
           else wl),
         revenue :=
           if 0 < deposit_fee_for db uid now then
             db.revenue ++
               [{ rtype := "SERVICE_FEE", category := "DEPOSIT_FEE",
                  amount := deposit_fee_for db uid now, userId := uid,
                  relatedTransaction := (extract_funding req.event).transaction_reference }]
           else db.revenue,
         notifications := db.notifications + 1 }) := by
    unfold monnify_webhook
    rw [if_neg (fun hn => hn h_sig), if_pos h_sp]
    simp only [h_novas]
    rw [if_neg (by omega)]
    simp only [h_uid]
    rw [if_pos h_uid_ne]
    simp only [h_noref]
    unfold process_reserved_account_funding_inline
    simp only [h_noref, h_wallet]
    rw [if_neg h_credit]
    simp only [h_nokey, Bool.false_eq_true, if_false, updateWalletBalance]
    rcases Classical.em (0 < deposit_fee_for db uid now) with hfee | hfee
    · simp only [if_pos hfee]
    · simp only [if_neg hfee]
  have hsecond : ∀ id2, monnify_webhook hmacSha512 secret req now id2
      { db with
        txns := db.txns ++
          [fundingTxnRow uid
            ((extract_funding req.event).amount_paid - deposit_fee_for db uid now)
            (extract_funding req.event).amount_paid (deposit_fee_for db uid now)
            (extract_funding req.event).transaction_reference newId now],
        wallets := db.wallets.map (fun wl =>
          if wl.userId = uid then
            { wl with balance := applyWalletWrite wl.balance (creditWalletWrite w.balance ((extract_funding req.event).amount_paid - deposit_fee_for db uid now)) }
          else wl),
        revenue :=
          if 0 < deposit_fee_for db uid now then
            db.revenue ++
              [{ rtype := "SERVICE_FEE", category := "DEPOSIT_FEE",
                 amount := deposit_fee_for db uid now, userId := uid,
                 relatedTransaction := (extract_funding req.event).transaction_reference }]
          else db.revenue,
        notifications := db.notifications + 1 } =
      ({ code := 200, ok := true, message := "Already processed" },
       { db with
         txns := db.txns ++
           [fundingTxnRow uid
             ((extract_funding req.event).amount_paid - deposit_fee_for db uid now)
             (extract_funding req.event).amount_paid (deposit_fee_for db uid now)
             (extract_funding req.event).transaction_reference newId now],
         wallets := db.wallets.map (fun wl =>
           if wl.userId = uid then
             { wl with balance := applyWalletWrite wl.balance (creditWalletWrite w.balance ((extract_funding req.event).amount_paid - deposit_fee_for db uid now)) }
           else wl),
         revenue :=
           if 0 < deposit_fee_for db uid now then
             db.revenue ++
               [{ rtype := "SERVICE_FEE", category := "DEPOSIT_FEE",
                  amount := deposit_fee_for db uid now, userId := uid,
                  relatedTransaction := (extract_funding req.event).transaction_reference }]
           else db.revenue,
         notifications := db.notifications + 1 }) := by
    intro id2
    unfold monnify_webhook
    rw [if_neg (fun hn => hn h_sig), if_pos h_sp]
    have h_novas2 : find_existing_vas_txn
        { db with
          txns := db.txns ++
            [fundingTxnRow uid
              ((extract_funding req.event).amount_paid - deposit_fee_for db uid now)
              (extract_funding req.event).amount_paid (deposit_fee_for db uid now)
              (extract_funding req.event).transaction_reference newId now],
          wallets := db.wallets.map (fun wl =>
            if wl.userId = uid then
              { wl with balance := applyWalletWrite wl.balance (creditWalletWrite w.balance ((extract_funding req.event).amount_paid - deposit_fee_for db uid now)) }
            else wl),
          revenue :=
            if 0 < deposit_fee_for db uid now then
              db.revenue ++
                [{ rtype := "SERVICE_FEE", category := "DEPOSIT_FEE",
                   amount := deposit_fee_for db uid now, userId := uid,
                   relatedTransaction := (extract_funding req.event).transaction_reference }]
            else db.revenue,
          notifications := db.notifications + 1 } (vas_detect_ref req.event) = none := by
      unfold find_existing_vas_txn at h_novas ⊢
      simp only [List.find?_append, h_novas, Option.none_or]
      simp [fundingTxnRow, blankTxn]
    simp only [h_novas2]
    rw [if_neg (by omega)]
    have h_uid2 : resolve_user_id (extract_funding req.event)
        { db with
          txns := db.txns ++
            [fundingTxnRow uid
              ((extract_funding req.event).amount_paid - deposit_fee_for db uid now)
              (extract_funding req.event).amount_paid (deposit_fee_for db uid now)
              (extract_funding req.event).transaction_reference newId now],
          wallets := db.wallets.map (fun wl =>
            if wl.userId = uid then
              { wl with balance := applyWalletWrite wl.balance (creditWalletWrite w.balance ((extract_funding req.event).amount_paid - deposit_fee_for db uid now)) }
            else wl),
          revenue :=
            if 0 < deposit_fee_for db uid now then
              db.revenue ++
                [{ rtype := "SERVICE_FEE", category := "DEPOSIT_FEE",
                   amount := deposit_fee_for db uid now, userId := uid,
                   relatedTransaction := (extract_funding req.event).transaction_reference }]
            else db.revenue,
          notifications := db.notifications + 1 } = uid := h_uid
    simp only [h_uid2]
    rw [if_pos h_uid_ne]
    have h_found2 : List.find? (fun t =>
        t.reference = some (extract_funding req.event).transaction_reference)
        (db.txns ++
          [fundingTxnRow uid
            ((extract_funding req.event).amount_paid - deposit_fee_for db uid now)
            (extract_funding req.event).amount_paid (deposit_fee_for db uid now)
            (extract_funding req.event).transaction_reference newId now]) =
        some (fundingTxnRow uid
          ((extract_funding req.event).amount_paid - deposit_fee_for db uid now)
          (extract_funding req.event).amount_paid (deposit_fee_for db uid now)
          (extract_funding req.event).transaction_reference newId now) := by
      simp only [List.find?_append, h_noref, Option.none_or]
      simp [fundingTxnRow, blankTxn]
    simp only [h_found2]
    rw [if_pos (show (fundingTxnRow uid
      ((extract_funding req.event).amount_paid - deposit_fee_for db uid now)
      (extract_funding req.event).amount_paid (deposit_fee_for db uid now)
      (extract_funding req.event).transaction_reference newId now).status =
        TxnStatus.SUCCESS from rfl)]
  refine ⟨hfirst, rfl, ?_, ?_, hsecond, ?_⟩
  · unfold fundingTxnCount
    simp only [List.countP_append]
    have hz : db.txns.countP (fun t =>
        t.type_ = TxnType.WALLET_FUNDING &&
        t.reference = some (extract_funding req.event).transaction_reference) = 0 := by
      refine List.countP_eq_zero.mpr ?_
      intro t ht
      have hnr := List.find?_eq_none.mp h_noref t ht
      simp only [decide_eq_true_eq] at hnr
      simp [hnr]
    rw [hz]
    simp [fundingTxnRow, blankTxn]
  · unfold walletBalance findWallet
    simp only [find?_wallets_map, hw']
    simp [applyWalletWrite, creditWalletWrite]
  · intro ids
    induction ids with
    | nil => rfl
    | cons i is ih =>
        have h2 := congrArg Prod.snd (hsecond i)
        simp only [deliverTimes, List.foldl_cons]
        rw [h2]
        exact ih

theorem C1_webhook_funding_idempotent_witness :
    deposit_fee_for dbA "USERA" 1000 =
      (if is_premium_user dbA "USERA" 1000 then 0 else VAS_TRANSACTION_FEE) :=
  (C1_webhook_funding_idempotent hmFix "sec" fundingReq 1000 7 dbA "USERA" walletA
    (extract_funding fundingReq.event)
    (monnify_webhook hmFix "sec" fundingReq 1000 7 dbA).2
    rfl rfl (Or.inl rfl) (by decide) (by decide) (by decide) (by decide)
    (by decide) (by decide) (by decide) (by decide) (by decide)).2.1

theorem update_only_txns (user_id : String) (amount_paid : Int) (ref : String)
    (now : Nat) (db : DB) :
    ((process_reserved_account_funding_update_only user_id amount_paid ref now db).2).txns =
      db.txns := by
  unfold process_reserved_account_funding_update_only
  split
  · rfl
  · dsimp only
    split
    · rfl
    · dsimp only [updateWalletBalance]
      split
      · rfl
      · rfl

theorem recoveries_txns (db : DB) (c : Int) (now : Nat) :
    (process_emergency_recoveries db c now).txns = db.txns := by
  unfold process_emergency_recoveries
  generalize db.emergencyTags = tags
  induction tags generalizing db with
  | nil => rfl
  | cons tg tgs ih =>
      simp only [List.foldl_cons]
      rw [ih]
      split
      · dsimp only [updateWalletBalance]
      · rfl

theorem inline_funding_mono (user_id : String) (amount_paid : Int) (ref : String)
    (now : Nat) (newId : Nat) (db : DB) :
    StatusMono db.txns
      ((process_reserved_account_funding_inline user_id amount_paid ref now newId db).2).txns := by
  unfold process_reserved_account_funding_inline
  split
  · exact statusMono_rfl _
  · dsimp only
    split
    · exact statusMono_rfl _
    · split
      · exact statusMono_rfl _
      · split
        · exact statusMono_rfl _
        · dsimp only [updateWalletBalance]
          split
          · exact statusMono_append _ _
          · exact statusMono_append _ _

/-! Claim C5: terminal-status monotonicity. -/

/-- C5: across every modelled operation — the current purchase flows, the
legacy purchase flow, the webhook handler (confirmation, funding and KYC
paths) and the reconciliation job — a Transaction whose status is SUCCESS
keeps status SUCCESS, and a FAILED transaction can only stay FAILED or be
promoted to SUCCESS; `SUCCESS → FAILED` never happens.  (Freshness of the
ObjectId an operation generates is the uniqueness MongoDB guarantees.) -/
theorem C5_success_never_demoted (op : Op) (db : DB) (hfresh : opFresh op db) :
    StatusMono db.txns (applyOp op db).txns := by
  cases op with
  | airtime uid ph nw amount pricing newId rid now m p =>
      have hfr : ∀ t ∈ db.txns, t.id ≠ newId := hfresh
      simp only [applyOp]
      unfold buy_airtime
      split
      · exact statusMono_rfl _
      · split
        · exact statusMono_rfl _
        · dsimp only
          split
          · exact statusMono_rfl _
          · split
            · exact statusMono_rfl _
            · split
              · exact statusMono_rfl _
              · split
                · dsimp only
                  rw [updateFirst_fresh_append hfr
                    (setFailedUpdate (attempt_airtime m p).error_message) rfl]
                  exact statusMono_append _ _
                · dsimp only [updateWalletBalance]
                  split
                  · dsimp only [tag_emergency_transaction]
                    split
                    · rw [updateFirst_fresh_append hfr
                        (setSuccessUpdate (attempt_airtime m p).provider) rfl]
                      exact statusMono_append _ _
                    · rw [updateFirst_fresh_append hfr
                        (setSuccessUpdate (attempt_airtime m p).provider) rfl]
                      exact statusMono_append _ _
                  · split
                    · rw [updateFirst_fresh_append hfr
                        (setSuccessUpdate (attempt_airtime m p).provider) rfl]
                      exact statusMono_append _ _
                    · rw [updateFirst_fresh_append hfr
                        (setSuccessUpdate (attempt_airtime m p).provider) rfl]
                      exact statusMono_append _ _
  | legacyAirtime uid ph nw amount pricing newId rid now m p =>
      have hfr : ∀ t ∈ db.txns, t.id ≠ newId := hfresh
      simp only [applyOp]
      unfold legacy_buy_airtime
      split
      · exact statusMono_rfl _
      · split
        · exact statusMono_rfl _
        · dsimp only
          split
          · exact statusMono_rfl _
          · split
            · exact statusMono_rfl _
            · split
              · exact statusMono_rfl _
              · split
                · dsimp only
                  rw [updateFirst_fresh_append hfr
                    (legacySetFailedUpdate (attempt_airtime m p).error_message) rfl]
                  exact statusMono_append _ _
                · dsimp only [updateWalletBalance]
                  split
                  · dsimp only [tag_emergency_transaction]
                    split
                    · rw [updateFirst_fresh_append hfr
                        (legacySetSuccessUpdate (attempt_airtime m p).provider) rfl]
                      exact statusMono_append _ _
                    · rw [updateFirst_fresh_append hfr
                        (legacySetSuccessUpdate (attempt_airtime m p).provider) rfl]
                      exact statusMono_append _ _
                  · split
                    · rw [updateFirst_fresh_append hfr
                        (legacySetSuccessUpdate (attempt_airtime m p).provider) rfl]
                      exact statusMono_append _ _
                    · rw [updateFirst_fresh_append hfr
                        (legacySetSuccessUpdate (attempt_airtime m p).provider) rfl]
                      exact statusMono_append _ _
  | dataPurchase uid ph nw pid pname amount pv newId rid now m p =>
      have hfr : ∀ t ∈ db.txns, t.id ≠ newId := hfresh
      simp only [applyOp]
      unfold buy_data
      split
      · exact statusMono_rfl _
      · split
        · exact statusMono_rfl _
        · dsimp only
          split
          · exact statusMono_rfl _
          · split
            · exact statusMono_rfl _
            · split
              · exact statusMono_rfl _
              · split
                · dsimp only
                  rw [attempt_data_txns]
                  dsimp only
                  rw [updateFirst_fresh_append hfr
                    (setFailedUpdate (attempt_data uid pid pname amount m p
                      { db with txns := db.txns ++ [dataTxnRow uid ph nw pid pname amount
                        newId rid now] }).1.error_message) rfl]
                  exact statusMono_append _ _
                · dsimp only [updateWalletBalance]
                  rw [attempt_data_wallets, attempt_data_txns]
                  split
                  · dsimp only [tag_emergency_transaction]
                    rw [updateFirst_fresh_append hfr
                      (setSuccessUpdate (attempt_data uid pid pname amount m p
                        { db with txns := db.txns ++ [dataTxnRow uid ph nw pid pname amount
                          newId rid now] }).1.provider) rfl]
                    exact statusMono_append _ _
                  · rw [updateFirst_fresh_append hfr
                      (setSuccessUpdate (attempt_data uid pid pname amount m p
                        { db with txns := db.txns ++ [dataTxnRow uid ph nw pid pname amount
                          newId rid now] }).1.provider) rfl]
                    exact statusMono_append _ _
  | webhook hm secret req now newId =>
      simp only [applyOp]
      unfold monnify_webhook
      dsimp only
      split
      · exact statusMono_rfl _
      · split
        · split
          · refine statusMono_updateFirst _ _ ?_ ?_ ?_ _
            · intro t
              unfold vasConfirmUpdate
              split <;> rfl
            · intro t ht
              unfold vasConfirmUpdate
              split <;> simp [ht]
            · intro t ht
              unfold vasConfirmUpdate
              split
              · exact Or.inr rfl
              · exact Or.inl ht
          · split
            · exact statusMono_rfl _
            · split
              · split
                · split
                  · exact statusMono_rfl _
                  · rw [update_only_txns]
                    refine statusMono_updateFirst _ _ ?_ ?_ ?_ _
                    · intro t; rfl
                    · intro t _; rfl
                    · intro t _; exact Or.inr rfl
                · exact inline_funding_mono _ _ _ _ _ _
              · split
                · split
                  · exact statusMono_rfl _
                  · refine statusMono_updateFirst _ _ ?_ ?_ ?_ _
                    · intro t; rfl
                    · intro t _; rfl
                    · intro t _; exact Or.inr rfl
                · exact statusMono_rfl _
        · exact statusMono_rfl _
  | recovery c now =>
      simp only [applyOp]
      rw [recoveries_txns]
      exact statusMono_rfl _

theorem C5_success_never_demoted_witness :
    StatusMono dbA.txns (applyOp (Op.webhook hmFix "sec" fundingReq 1000 7) dbA).txns :=
  C5_success_never_demoted (Op.webhook hmFix "sec" fundingReq 1000 7) dbA
    (by intro t ht; simp [dbA] at ht)
